import Mathlib

/-!
DSP JIT extended-op emitter (`Source/Core/Core/Src/DSP/Jit/DSPJitExtOps.cpp`)

The emitter is embedded in two layers.

* Compile time: `DSPEmitter` carries the two destination tags `storeIndex` and
  `storeIndex2`, the list of instructions emitted so far and a ghost record of the
  assignments made to the two tags.  Every handler of the source file is a function
  `DSPEmitter → DSPEmitter` that appends to that list.
* Run time: `run` executes an emitted instruction list on a `DSPState` (DSP
  register file, data memory, the host registers used by the file, the zero flag).

Helpers that the file calls but does not define (`dsp_op_read_reg`, `dmem_read`,
`increment_addr_reg`, ...) are emitted as single instructions; their run-time
meaning is modelled from the specification (section 6, external collaborator
contracts) and their arithmetic is a parameter (`Collab`).
-/

namespace DSPJit

/-! ## Register indices and constants -/

/-- Modelled from the spec: index of addressing register AR0 in the DSP register
file; the enumeration of register indices is declared outside the source file.
AR0..AR3 are indices 0..3 (the handlers pass `opc & 0x3` as an addressing register). -/
def DSP_REG_AR0 : Nat := 0

/-- Modelled from the spec: index of addressing register AR3. -/
def DSP_REG_AR3 : Nat := 3

/-- Modelled from the spec: index of indexing register IX0 (IX0..IX3 are paired
with AR0..AR3). -/
def DSP_REG_IX0 : Nat := 4

/-- Modelled from the spec: index of wrapping register WR0 (WR0..WR3 hold the
memory-page wrap rule of AR0..AR3). -/
def DSP_REG_WR0 : Nat := 8

/-- Modelled from the spec: index of the high word of accumulator 0. -/
def DSP_REG_ACH0 : Nat := 16

/-- Modelled from the spec: index of the status register SR. -/
def DSP_REG_SR : Nat := 19

/-- Modelled from the spec: index of AX0.L; the source comment on `l`
(`//AX?.?, AC?.[LM]`) fixes the layout AXL0, AXL1, AXH0, AXH1, ACL0, ACL1, ACM0,
ACM1 of the eight indices starting here. -/
def DSP_REG_AXL0 : Nat := 24

/-- Modelled from the spec: index of AX1.L. -/
def DSP_REG_AXL1 : Nat := 25

/-- Modelled from the spec: index of AX0.H. -/
def DSP_REG_AXH0 : Nat := 26

/-- Modelled from the spec: index of AX1.H. -/
def DSP_REG_AXH1 : Nat := 27

/-- Modelled from the spec: index of the low word of accumulator 0. -/
def DSP_REG_ACL0 : Nat := 28

/-- Modelled from the spec: index of the low word of accumulator 1. -/
def DSP_REG_ACL1 : Nat := 29

/-- Modelled from the spec: index of the mid word of accumulator 0. -/
def DSP_REG_ACM0 : Nat := 30

/-- Modelled from the spec: index of the mid word of accumulator 1. -/
def DSP_REG_ACM1 : Nat := 31

/-- Modelled from the spec: the 40-bit-mode bit of the status register; shifted
left by 16 it is bit 30 of the holding value. -/
def SR_40_MODE_BIT : Nat := 0x4000

/-! ## Emitted instructions -/

/-- Host registers named by the source file.  `TMP` stands for the temporary
handed out by `gpr.getFreeXReg`. -/
inductive X64Reg where
  | RAX
  | RBX
  | RCX
  | TMP
  deriving DecidableEq, Repr

/-- The extension mode argument of `dsp_op_read_reg`. -/
inductive DSPJitSignExtend where
  | SIGN
  | ZERO
  | NONE
  deriving DecidableEq, Repr

/-- The `FixupBranch` variables of the source file, one per forward jump target. -/
inductive FixupBranch where
  | not_equal
  | after
  | not_40bit
  deriving DecidableEq, Repr

/-- Condition codes used by the source file. -/
inductive CCFlags where
  | CC_NE
  | CC_Z
  deriving DecidableEq, Repr

/-- One emitted instruction: either a native x86 instruction written by the source
file itself, or a call of one helper of the emitter that the file uses. -/
inductive Instr where
  | dsp_op_read_reg (reg : Nat) (host_dreg : X64Reg) (extend : DSPJitSignExtend)
  | dsp_op_read_reg_and_saturate (reg : Nat) (host_dreg : X64Reg) (extend : DSPJitSignExtend)
  | dsp_op_write_reg (reg : Nat) (host_sreg : X64Reg)
  | dmem_read (address : X64Reg)
  | dmem_write (value : X64Reg)
  | increment_addr_reg (reg : Nat)
  | decrement_addr_reg (reg : Nat)
  | increase_addr_reg (reg : Nat) (ix_reg : Nat)
  | set_acc_h (reg : Nat) (src : X64Reg)
  | set_acc_l_imm (reg : Nat) (imm : Nat)
  | MOVZX_32_16 (dst : X64Reg) (src : X64Reg)
  | MOVSX_32_16 (dst : X64Reg) (src : X64Reg)
  | SHL32 (dst : X64Reg) (imm : Nat)
  | SHR32 (dst : X64Reg) (imm : Nat)
  | OR32 (dst : X64Reg) (src : X64Reg)
  | XOR16 (dst : X64Reg) (src : X64Reg)
  | TEST16 (dst : X64Reg) (imm : Nat)
  | TEST32 (dst : X64Reg) (imm : Nat)
  | J_CC (cc : CCFlags) (target : FixupBranch)
  | J (target : FixupBranch)
  | SetJumpTarget (branch : FixupBranch)
  | flushRegs
  deriving DecidableEq, Repr

/-! ## Run-time state and collaborators -/

/-- A data-memory access performed by emitted code (ghost record). -/
inductive MemEvent where
  | read (addr : Nat)
  | write (addr : Nat) (val : Nat)
  deriving DecidableEq, Repr

/-- Run-time state seen by the emitted code: the DSP register file `r`
(`g_dsp.r`), data memory, the host registers, the zero flag, and two ghost logs:
the data-memory accesses performed and the decision taken at every conditional
jump (`true` = jump taken). -/
structure DSPState where
  r : Nat → Nat
  dmem : Nat → Nat
  rax : Nat
  rbx : Nat
  rcx : Nat
  tmp : Nat
  zf : Bool
  memlog : List MemEvent
  brlog : List (FixupBranch × Bool)

/-- Modelled from the spec: the arithmetic of the external collaborators of
section 6, which the source file only calls.  `increment ar wr`, `decrement ar wr`
and `increase ar wr ix` are the Addressing-Register Updater (new pointer value from
the old pointer, its wrapping register and, for `increase`, an index register);
`saturate regs reg` is the Register File Accessor's saturating read of register
`reg`; `writable addr` says whether `store16` at `addr` reaches a memory cell. -/
structure Collab where
  increment : Nat → Nat → Nat
  decrement : Nat → Nat → Nat
  increase : Nat → Nat → Nat → Nat
  saturate : (Nat → Nat) → Nat → Nat
  writable : Nat → Bool

/-- A concrete collaborator set for running emitted code on concrete inputs:
pointers advance without wrapping inside 16 bits, the saturating read clamps
nothing, every address is writable. -/
def flatCollab : Collab where
  increment := fun ar _ => ar + 1
  decrement := fun ar _ => ar + 65535
  increase := fun ar _ ix => ar + ix
  saturate := fun regs reg => regs reg
  writable := fun _ => true

namespace DSPState

/-- Value of a host register. -/
def host (st : DSPState) : X64Reg → Nat
  | .RAX => st.rax
  | .RBX => st.rbx
  | .RCX => st.rcx
  | .TMP => st.tmp

/-- Overwrite a host register. -/
def setHost (st : DSPState) (h : X64Reg) (v : Nat) : DSPState :=
  match h with
  | .RAX => { st with rax := v }
  | .RBX => { st with rbx := v }
  | .RCX => { st with rcx := v }
  | .TMP => { st with tmp := v }

/-- Overwrite one 16-bit DSP register. -/
def setReg (st : DSPState) (reg : Nat) (v : Nat) : DSPState :=
  { st with r := Function.update st.r reg (v % 65536) }

end DSPState

/-- Load a 16-bit value `v` into a host register holding `old` under an extension
mode: `ZERO` and `SIGN` replace the whole 64-bit register, `NONE` is a 16-bit move
that keeps the upper 48 bits. -/
def extendInto (extend : DSPJitSignExtend) (old v : Nat) : Nat :=
  match extend with
  | .ZERO => v % 65536
  | .SIGN => if v % 65536 < 32768 then v % 65536 else v % 65536 + (2 ^ 64 - 65536)
  | .NONE => old - old % 65536 + v % 65536

/-- Modelled from the spec: run-time effect of one emitted instruction other than
a jump.  The helper calls follow the collaborator contracts of section 6:
`read(index, saturate) -> value`, `write(index, value)`, `increment(index)`,
`indexAdd(dst_index, index_reg_index)`, `load16(addr) -> value`,
`store16(addr, value)`; `dmem_write` takes its address from RAX and `dmem_read`
returns its result in the low 16 bits of RAX, as the callers in the source file
arrange.  The native instructions have their x86 meaning on 16- and 32-bit
operands. -/
def step (X : Collab) (i : Instr) (st : DSPState) : DSPState :=
  match i with
  | .dsp_op_read_reg reg h ext =>
      st.setHost h (extendInto ext (st.host h) (st.r reg))
  | .dsp_op_read_reg_and_saturate reg h ext =>
      st.setHost h (extendInto ext (st.host h) (X.saturate st.r reg))
  | .dsp_op_write_reg reg h => st.setReg reg (st.host h)
  | .dmem_read a =>
      let addr := st.host a % 65536
      { st with rax := extendInto .NONE st.rax (st.dmem addr),
                memlog := st.memlog ++ [MemEvent.read addr] }
  | .dmem_write v =>
      let addr := st.rax % 65536
      let val := st.host v % 65536
      { st with dmem := if X.writable addr then Function.update st.dmem addr val else st.dmem,
                memlog := st.memlog ++ [MemEvent.write addr val] }
  | .increment_addr_reg reg =>
      st.setReg reg (X.increment (st.r reg) (st.r (DSP_REG_WR0 + reg)))
  | .decrement_addr_reg reg =>
      st.setReg reg (X.decrement (st.r reg) (st.r (DSP_REG_WR0 + reg)))
  | .increase_addr_reg reg ix =>
      st.setReg reg (X.increase (st.r reg) (st.r (DSP_REG_WR0 + reg)) (st.r (DSP_REG_IX0 + ix)))
  | .set_acc_h reg src => st.setReg (DSP_REG_ACH0 + reg) (st.host src)
  | .set_acc_l_imm reg imm => st.setReg (DSP_REG_ACL0 + reg) imm
  | .MOVZX_32_16 d src => st.setHost d (st.host src % 65536)
  | .MOVSX_32_16 d src =>
      let v := st.host src % 65536
      st.setHost d (if v < 32768 then v else v + 0xFFFF0000)
  | .SHL32 d imm =>
      let v := (st.host d % 2 ^ 32 * 2 ^ imm) % 2 ^ 32
      { st.setHost d v with zf := decide (v = 0) }
  | .SHR32 d imm =>
      let v := st.host d % 2 ^ 32 / 2 ^ imm
      { st.setHost d v with zf := decide (v = 0) }
  | .OR32 d src =>
      let v := (st.host d % 2 ^ 32) ||| (st.host src % 2 ^ 32)
      { st.setHost d v with zf := decide (v = 0) }
  | .XOR16 d src =>
      let v := (st.host d % 65536) ^^^ (st.host src % 65536)
      { st.setHost d (extendInto .NONE (st.host d) v) with zf := decide (v = 0) }
  | .TEST16 d imm => { st with zf := decide ((st.host d % 65536) &&& imm = 0) }
  | .TEST32 d imm => { st with zf := decide ((st.host d % 2 ^ 32) &&& imm = 0) }
  | .J_CC _ _ => st
  | .J _ => st
  | .SetJumpTarget _ => st
  | .flushRegs => st

/-- Whether a conditional jump is taken in a state. -/
def condHolds (cc : CCFlags) (st : DSPState) : Bool :=
  match cc with
  | .CC_NE => !st.zf
  | .CC_Z => st.zf

/-- Execute emitted code.  All jumps of the source file are forward jumps to a
`FixupBranch` that is bound later by `SetJumpTarget`; `skip = some b` means a jump
to `b` is in flight and instructions are skipped until `SetJumpTarget b`. -/
def run (X : Collab) : Option FixupBranch → List Instr → DSPState → DSPState
  | _, [], st => st
  | some b, i :: rest, st =>
      match i with
      | .SetJumpTarget b2 => if b = b2 then run X none rest st else run X (some b) rest st
      | _ => run X (some b) rest st
  | none, i :: rest, st =>
      match i with
      | .J_CC cc b =>
          if condHolds cc st then
            run X (some b) rest { st with brlog := st.brlog ++ [(b, true)] }
          else
            run X none rest { st with brlog := st.brlog ++ [(b, false)] }
      | .J b => run X (some b) rest st
      | _ => run X none rest (step X i st)

/-! ## The emitter (compile time) -/

/-- One assignment of a destination to a tag (ghost record). -/
inductive TagWrite where
  | storeIndex (dreg : Int)
  | storeIndex2 (dreg : Int)
  deriving DecidableEq, Repr

/-- Compile-time state of the emitter as far as the source file uses it: the two
destination tags (`-1` = none) and the code emitted so far.  The ghost field
`staged` records, in order, every assignment of a destination to `storeIndex` or
`storeIndex2` made since the last `popExtValueToReg`. -/
structure DSPEmitter where
  storeIndex : Int
  storeIndex2 : Int
  code : List Instr
  staged : List TagWrite

namespace DSPEmitter

/-- Emitter state at the start of an instruction: nothing staged, no code. -/
def fresh : DSPEmitter := { storeIndex := -1, storeIndex2 := -1, code := [], staged := [] }

/-- Append one instruction to the code buffer. -/
def emit (e : DSPEmitter) (i : Instr) : DSPEmitter :=
  { e with code := e.code ++ [i] }

/-- Modelled from the spec: Host Register Cache `acquireTemp() -> handle`; the
handle is a host register other than RAX, RBX and RCX, which the source file
addresses by name.  The file never holds two temporaries at once. -/
def getFreeXReg : X64Reg := X64Reg.TMP

/-- DR $arR : decrement addressing register $arR. -/
def dr (opc : Nat) (e : DSPEmitter) : DSPEmitter :=
  e.emit (.decrement_addr_reg (opc &&& 0x3))

/-- IR $arR : increment addressing register $arR. -/
def ir (opc : Nat) (e : DSPEmitter) : DSPEmitter :=
  e.emit (.increment_addr_reg (opc &&& 0x3))

/-- NR $arR : add indexing register $ixR to addressing register $arR. -/
def nr (opc : Nat) (e : DSPEmitter) : DSPEmitter :=
  let reg := (opc &&& 0x3) % 256
  e.emit (.increase_addr_reg reg reg)

/-- Push value from `g_dsp.r[sreg]` into EBX and store the destination index in
`storeIndex`. -/
def pushExtValueFromReg (dreg sreg : Nat) (e : DSPEmitter) : DSPEmitter :=
  let e := e.emit (.dsp_op_read_reg sreg .RBX .ZERO)
  { e with storeIndex := (dreg : Int), staged := e.staged ++ [.storeIndex (dreg : Int)] }

/-- Load the word addressed by register `sreg` into EBX (zero-extended) and store
the destination index in `storeIndex`. -/
def pushExtValueFromMem (dreg sreg : Nat) (e : DSPEmitter) : DSPEmitter :=
  let tmp1 := getFreeXReg
  let e := e.emit (.dsp_op_read_reg sreg tmp1 .ZERO)
  let e := e.emit (.dmem_read tmp1)
  let e := e.emit (.MOVZX_32_16 .RBX .RAX)
  { e with storeIndex := (dreg : Int), staged := e.staged ++ [.storeIndex (dreg : Int)] }

/-- Load the word addressed by register `sreg` into bits 16..31 of EBX and store
the destination index in `storeIndex2`. -/
def pushExtValueFromMem2 (dreg sreg : Nat) (e : DSPEmitter) : DSPEmitter :=
  let tmp1 := getFreeXReg
  let e := e.emit (.dsp_op_read_reg sreg tmp1 .ZERO)
  let e := e.emit (.dmem_read tmp1)
  let e := e.emit (.SHL32 .RAX 16)
  let e := e.emit (.OR32 .RBX .RAX)
  { e with storeIndex2 := (dreg : Int), staged := e.staged ++ [.storeIndex2 (dreg : Int)] }

/-- MV $axD.D, $acS.S : move value of $acS.S to $axD.D. -/
def mv (opc : Nat) (e : DSPEmitter) : DSPEmitter :=
  let sreg := ((opc &&& 0x3) + DSP_REG_ACL0) % 256
  let dreg := ((opc >>> 2) &&& 0x3) % 256
  if sreg ≥ DSP_REG_ACM0 then
    let e := e.emit (.dsp_op_read_reg_and_saturate sreg .RBX .ZERO)
    { e with storeIndex := ((dreg + DSP_REG_AXL0 : Nat) : Int),
             staged := e.staged ++ [.storeIndex ((dreg + DSP_REG_AXL0 : Nat) : Int)] }
  else
    pushExtValueFromReg (dreg + DSP_REG_AXL0) sreg e

/-- S @$arD, $acS.S : store $acS.S at the address in $arD, post-increment $arD. -/
def s (opc : Nat) (e : DSPEmitter) : DSPEmitter :=
  let dreg := (opc &&& 0x3) % 256
  let sreg := (((opc >>> 3) &&& 0x3) + DSP_REG_ACL0) % 256
  let e := e.emit (.dsp_op_read_reg dreg .RAX .ZERO)
  let tmp1 := getFreeXReg
  let e :=
    if sreg ≥ DSP_REG_ACM0 then e.emit (.dsp_op_read_reg_and_saturate sreg tmp1 .ZERO)
    else e.emit (.dsp_op_read_reg sreg tmp1 .ZERO)
  let e := e.emit (.dmem_write tmp1)
  e.emit (.increment_addr_reg dreg)

/-- SN @$arD, $acS.S : store $acS.S at the address in $arD, add $ixD to $arD. -/
def sn (opc : Nat) (e : DSPEmitter) : DSPEmitter :=
  let dreg := (opc &&& 0x3) % 256
  let sreg := (((opc >>> 3) &&& 0x3) + DSP_REG_ACL0) % 256
  let e := e.emit (.dsp_op_read_reg dreg .RAX .ZERO)
  let tmp1 := getFreeXReg
  let e :=
    if sreg ≥ DSP_REG_ACM0 then e.emit (.dsp_op_read_reg_and_saturate sreg tmp1 .ZERO)
    else e.emit (.dsp_op_read_reg sreg tmp1 .ZERO)
  let e := e.emit (.dmem_write tmp1)
  e.emit (.increase_addr_reg dreg dreg)

/-- L $axD.D, @$arS : load $axD.D/$acD.D from the address in $arS, post-increment
$arS. -/
def l (opc : Nat) (e : DSPEmitter) : DSPEmitter :=
  let sreg := (opc &&& 0x3) % 256
  let dreg := (((opc >>> 3) &&& 0x7) + DSP_REG_AXL0) % 256
  let e := pushExtValueFromMem dreg sreg e
  let e :=
    if dreg ≥ DSP_REG_ACM0 then
      let e := e.emit (.dsp_op_read_reg DSP_REG_SR .RAX .NONE)
      let e := e.emit (.SHL32 .RAX 16)
      e.emit (.OR32 .RBX .RAX)
    else e
  e.emit (.increment_addr_reg sreg)

/-- LN $axD.D, @$arS : load $axD.D/$acD.D from the address in $arS, add $ixS to
$arS. -/
def ln (opc : Nat) (e : DSPEmitter) : DSPEmitter :=
  let sreg := (opc &&& 0x3) % 256
  let dreg := (((opc >>> 3) &&& 0x7) + DSP_REG_AXL0) % 256
  let e := pushExtValueFromMem dreg sreg e
  let e :=
    if dreg ≥ DSP_REG_ACM0 then
      let e := e.emit (.dsp_op_read_reg DSP_REG_SR .RAX .NONE)
      let e := e.emit (.SHL32 .RAX 16)
      e.emit (.OR32 .RBX .RAX)
    else e
  e.emit (.increase_addr_reg sreg sreg)

/-- LS $axD.D, $acS.m : store $acS.m at the address in $ar3, load $axD.D from the
address in $ar0, increment both. -/
def ls (opc : Nat) (e : DSPEmitter) : DSPEmitter :=
  let sreg := (opc &&& 0x1) % 256
  let dreg := (((opc >>> 4) &&& 0x3) + DSP_REG_AXL0) % 256
  let e := e.emit (.dsp_op_read_reg DSP_REG_AR3 .RAX .ZERO)
  let tmp1 := getFreeXReg
  let e :=
    if sreg ≥ DSP_REG_ACM0 then
      e.emit (.dsp_op_read_reg_and_saturate (sreg + DSP_REG_ACM0) tmp1 .ZERO)
    else e.emit (.dsp_op_read_reg (sreg + DSP_REG_ACM0) tmp1 .ZERO)
  let e := e.emit (.dmem_write tmp1)
  let e := pushExtValueFromMem dreg DSP_REG_AR0 e
  let e := e.emit (.increment_addr_reg DSP_REG_AR3)
  e.emit (.increment_addr_reg DSP_REG_AR0)

/-- LSN $axD.D, $acS.m : as `ls`, but $ix0 is added to $ar0; $ar3 is incremented. -/
def lsn (opc : Nat) (e : DSPEmitter) : DSPEmitter :=
  let sreg := (opc &&& 0x1) % 256
  let dreg := (((opc >>> 4) &&& 0x3) + DSP_REG_AXL0) % 256
  let e := e.emit (.dsp_op_read_reg DSP_REG_AR3 .RAX .ZERO)
  let tmp1 := getFreeXReg
  let e :=
    if sreg ≥ DSP_REG_ACM0 then
      e.emit (.dsp_op_read_reg_and_saturate (sreg + DSP_REG_ACM0) tmp1 .ZERO)
    else e.emit (.dsp_op_read_reg (sreg + DSP_REG_ACM0) tmp1 .ZERO)
  let e := e.emit (.dmem_write tmp1)
  let e := pushExtValueFromMem dreg DSP_REG_AR0 e
  let e := e.emit (.increment_addr_reg DSP_REG_AR3)
  e.emit (.increase_addr_reg DSP_REG_AR0 DSP_REG_AR0)

/-- LSM $axD.D, $acS.m : as `ls`, but $ix3 is added to $ar3; $ar0 is incremented. -/
def lsm (opc : Nat) (e : DSPEmitter) : DSPEmitter :=
  let sreg := (opc &&& 0x1) % 256
  let dreg := (((opc >>> 4) &&& 0x3) + DSP_REG_AXL0) % 256
  let e := e.emit (.dsp_op_read_reg DSP_REG_AR3 .RAX .ZERO)
  let tmp1 := getFreeXReg
  let e :=
    if sreg ≥ DSP_REG_ACM0 then
      e.emit (.dsp_op_read_reg_and_saturate (sreg + DSP_REG_ACM0) tmp1 .ZERO)
    else e.emit (.dsp_op_read_reg (sreg + DSP_REG_ACM0) tmp1 .ZERO)
  let e := e.emit (.dmem_write tmp1)
  let e := pushExtValueFromMem dreg DSP_REG_AR0 e
  let e := e.emit (.increase_addr_reg DSP_REG_AR3 DSP_REG_AR3)
  e.emit (.increment_addr_reg DSP_REG_AR0)

/-- LSNM $axD.D, $acS.m : as `ls`, but $ix0 is added to $ar0 and $ix3 to $ar3. -/
def lsnm (opc : Nat) (e : DSPEmitter) : DSPEmitter :=
  let sreg := (opc &&& 0x1) % 256
  let dreg := (((opc >>> 4) &&& 0x3) + DSP_REG_AXL0) % 256
  let e := e.emit (.dsp_op_read_reg DSP_REG_AR3 .RAX .ZERO)
  let tmp1 := getFreeXReg
  let e :=
    if sreg ≥ DSP_REG_ACM0 then
      e.emit (.dsp_op_read_reg_and_saturate (sreg + DSP_REG_ACM0) tmp1 .ZERO)
    else e.emit (.dsp_op_read_reg (sreg + DSP_REG_ACM0) tmp1 .ZERO)
  let e := e.emit (.dmem_write tmp1)
  let e := pushExtValueFromMem dreg DSP_REG_AR0 e
  let e := e.emit (.increase_addr_reg DSP_REG_AR3 DSP_REG_AR3)
  e.emit (.increase_addr_reg DSP_REG_AR0 DSP_REG_AR0)

/-- SL $acS.m, $axD.D : store $acS.m at the address in $ar0, load $axD.D from the
address in $ar3, increment both. -/
def sl (opc : Nat) (e : DSPEmitter) : DSPEmitter :=
  let sreg := (opc &&& 0x1) % 256
  let dreg := (((opc >>> 4) &&& 0x3) + DSP_REG_AXL0) % 256
  let e := e.emit (.dsp_op_read_reg DSP_REG_AR0 .RAX .ZERO)
  let tmp1 := getFreeXReg
  let e :=
    if sreg ≥ DSP_REG_ACM0 then
      e.emit (.dsp_op_read_reg_and_saturate (sreg + DSP_REG_ACM0) tmp1 .ZERO)
    else e.emit (.dsp_op_read_reg (sreg + DSP_REG_ACM0) tmp1 .ZERO)
  let e := e.emit (.dmem_write tmp1)
  let e := pushExtValueFromMem dreg DSP_REG_AR3 e
  let e := e.emit (.increment_addr_reg DSP_REG_AR3)
  e.emit (.increment_addr_reg DSP_REG_AR0)

/-- SLN $acS.m, $axD.D : as `sl`, but $ix0 is added to $ar0; $ar3 is incremented. -/
def sln (opc : Nat) (e : DSPEmitter) : DSPEmitter :=
  let sreg := (opc &&& 0x1) % 256
  let dreg := (((opc >>> 4) &&& 0x3) + DSP_REG_AXL0) % 256
  let e := e.emit (.dsp_op_read_reg DSP_REG_AR0 .RAX .ZERO)
  let tmp1 := getFreeXReg
  let e :=
    if sreg ≥ DSP_REG_ACM0 then
      e.emit (.dsp_op_read_reg_and_saturate (sreg + DSP_REG_ACM0) tmp1 .ZERO)
    else e.emit (.dsp_op_read_reg (sreg + DSP_REG_ACM0) tmp1 .ZERO)
  let e := e.emit (.dmem_write tmp1)
  let e := pushExtValueFromMem dreg DSP_REG_AR3 e
  let e := e.emit (.increment_addr_reg DSP_REG_AR3)
  e.emit (.increase_addr_reg DSP_REG_AR0 DSP_REG_AR0)

/-- SLM $acS.m, $axD.D : as `sl`, but $ix3 is added to $ar3; $ar0 is incremented. -/
def slm (opc : Nat) (e : DSPEmitter) : DSPEmitter :=
  let sreg := (opc &&& 0x1) % 256
  let dreg := (((opc >>> 4) &&& 0x3) + DSP_REG_AXL0) % 256
  let e := e.emit (.dsp_op_read_reg DSP_REG_AR0 .RAX .ZERO)
  let tmp1 := getFreeXReg
  let e :=
    if sreg ≥ DSP_REG_ACM0 then
      e.emit (.dsp_op_read_reg_and_saturate (sreg + DSP_REG_ACM0) tmp1 .ZERO)
    else e.emit (.dsp_op_read_reg (sreg + DSP_REG_ACM0) tmp1 .ZERO)
  let e := e.emit (.dmem_write tmp1)
  let e := pushExtValueFromMem dreg DSP_REG_AR3 e
  let e := e.emit (.increase_addr_reg DSP_REG_AR3 DSP_REG_AR3)
  e.emit (.increment_addr_reg DSP_REG_AR0)

/-- SLNM $acS.m, $axD.D : as `sl`, but $ix0 is added to $ar0 and $ix3 to $ar3. -/
def slnm (opc : Nat) (e : DSPEmitter) : DSPEmitter :=
  let sreg := (opc &&& 0x1) % 256
  let dreg := (((opc >>> 4) &&& 0x3) + DSP_REG_AXL0) % 256
  let e := e.emit (.dsp_op_read_reg DSP_REG_AR0 .RAX .ZERO)
  let tmp1 := getFreeXReg
  let e :=
    if sreg ≥ DSP_REG_ACM0 then
      e.emit (.dsp_op_read_reg_and_saturate (sreg + DSP_REG_ACM0) tmp1 .ZERO)
    else e.emit (.dsp_op_read_reg (sreg + DSP_REG_ACM0) tmp1 .ZERO)
  let e := e.emit (.dmem_write tmp1)
  let e := pushExtValueFromMem dreg DSP_REG_AR3 e
  let e := e.emit (.increase_addr_reg DSP_REG_AR3 DSP_REG_AR3)
  e.emit (.increase_addr_reg DSP_REG_AR0 DSP_REG_AR0)

/-- LD $ax0.d, $ax1.r, @$arS : dual load through $arS and $ar3; both pointers are
incremented. -/
def ld (opc : Nat) (e : DSPEmitter) : DSPEmitter :=
  let dreg := ((opc >>> 5) &&& 0x1) % 256
  let rreg := ((opc >>> 4) &&& 0x1) % 256
  let sreg := (opc &&& 0x3) % 256
  let e :=
    if sreg ≠ DSP_REG_AR3 then
      let e := pushExtValueFromMem ((dreg <<< 1) + DSP_REG_AXL0) sreg e
      let tmp := getFreeXReg
      let e := e.emit (.dsp_op_read_reg sreg .RCX .NONE)
      let e := e.emit (.dsp_op_read_reg DSP_REG_AR3 tmp .NONE)
      let e := e.emit (.XOR16 .RCX tmp)
      let e := e.emit (.TEST16 .RCX 0xfc00)
      let e := e.emit (.J_CC .CC_NE .not_equal)
      let e := pushExtValueFromMem2 ((rreg <<< 1) + DSP_REG_AXL1) sreg e
      let e := e.emit .flushRegs
      let e := e.emit (.J .after)
      let e := e.emit (.SetJumpTarget .not_equal)
      let e := pushExtValueFromMem2 ((rreg <<< 1) + DSP_REG_AXL1) DSP_REG_AR3 e
      let e := e.emit .flushRegs
      let e := e.emit (.SetJumpTarget .after)
      e.emit (.increment_addr_reg sreg)
    else
      let e := pushExtValueFromMem (rreg + DSP_REG_AXH0) dreg e
      let tmp := getFreeXReg
      let e := e.emit (.dsp_op_read_reg dreg .RCX .NONE)
      let e := e.emit (.dsp_op_read_reg DSP_REG_AR3 tmp .NONE)
      let e := e.emit (.XOR16 .RCX tmp)
      let e := e.emit (.TEST16 .RCX 0xfc00)
      let e := e.emit (.J_CC .CC_NE .not_equal)
      let e := pushExtValueFromMem2 (rreg + DSP_REG_AXL0) dreg e
      let e := e.emit .flushRegs
      let e := e.emit (.J .after)
      let e := e.emit (.SetJumpTarget .not_equal)
      let e := pushExtValueFromMem2 (rreg + DSP_REG_AXL0) DSP_REG_AR3 e
      let e := e.emit .flushRegs
      let e := e.emit (.SetJumpTarget .after)
      e.emit (.increment_addr_reg dreg)
  e.emit (.increment_addr_reg DSP_REG_AR3)

/-- LDN $ax0.d, $ax1.r, @$arS : as `ld`, with the index register added to the first
pointer. -/
def ldn (opc : Nat) (e : DSPEmitter) : DSPEmitter :=
  let dreg := ((opc >>> 5) &&& 0x1) % 256
  let rreg := ((opc >>> 4) &&& 0x1) % 256
  let sreg := (opc &&& 0x3) % 256
  let e :=
    if sreg ≠ DSP_REG_AR3 then
      let e := pushExtValueFromMem ((dreg <<< 1) + DSP_REG_AXL0) sreg e
      let tmp := getFreeXReg
      let e := e.emit (.dsp_op_read_reg sreg .RCX .NONE)
      let e := e.emit (.dsp_op_read_reg DSP_REG_AR3 tmp .NONE)
      let e := e.emit (.XOR16 .RCX tmp)
      let e := e.emit (.TEST16 .RCX 0xfc00)
      let e := e.emit (.J_CC .CC_NE .not_equal)
      let e := pushExtValueFromMem2 ((rreg <<< 1) + DSP_REG_AXL1) sreg e
      let e := e.emit .flushRegs
      let e := e.emit (.J .after)
      let e := e.emit (.SetJumpTarget .not_equal)
      let e := pushExtValueFromMem2 ((rreg <<< 1) + DSP_REG_AXL1) DSP_REG_AR3 e
      let e := e.emit .flushRegs
      let e := e.emit (.SetJumpTarget .after)
      e.emit (.increase_addr_reg sreg sreg)
    else
      let e := pushExtValueFromMem (rreg + DSP_REG_AXH0) dreg e
      let tmp := getFreeXReg
      let e := e.emit (.dsp_op_read_reg dreg .RCX .NONE)
      let e := e.emit (.dsp_op_read_reg DSP_REG_AR3 tmp .NONE)
      let e := e.emit (.XOR16 .RCX tmp)
      let e := e.emit (.TEST16 .RCX 0xfc00)
      let e := e.emit (.J_CC .CC_NE .not_equal)
      let e := pushExtValueFromMem2 (rreg + DSP_REG_AXL0) dreg e
      let e := e.emit .flushRegs
      let e := e.emit (.J .after)
      let e := e.emit (.SetJumpTarget .not_equal)
      let e := pushExtValueFromMem2 (rreg + DSP_REG_AXL0) DSP_REG_AR3 e
      let e := e.emit .flushRegs
      let e := e.emit (.SetJumpTarget .after)
      e.emit (.increase_addr_reg dreg dreg)
  e.emit (.increment_addr_reg DSP_REG_AR3)

/-- LDM $ax0.d, $ax1.r, @$arS : as `ld`, with $ix3 added to $ar3. -/
def ldm (opc : Nat) (e : DSPEmitter) : DSPEmitter :=
  let dreg := ((opc >>> 5) &&& 0x1) % 256
  let rreg := ((opc >>> 4) &&& 0x1) % 256
  let sreg := (opc &&& 0x3) % 256
  let e :=
    if sreg ≠ DSP_REG_AR3 then
      let e := pushExtValueFromMem ((dreg <<< 1) + DSP_REG_AXL0) sreg e
      let tmp := getFreeXReg
      let e := e.emit (.dsp_op_read_reg sreg .RCX .NONE)
      let e := e.emit (.dsp_op_read_reg DSP_REG_AR3 tmp .NONE)
      let e := e.emit (.XOR16 .RCX tmp)
      let e := e.emit (.TEST16 .RCX 0xfc00)
      let e := e.emit (.J_CC .CC_NE .not_equal)
      let e := pushExtValueFromMem2 ((rreg <<< 1) + DSP_REG_AXL1) sreg e
      let e := e.emit .flushRegs
      let e := e.emit (.J .after)
      let e := e.emit (.SetJumpTarget .not_equal)
      let e := pushExtValueFromMem2 ((rreg <<< 1) + DSP_REG_AXL1) DSP_REG_AR3 e
      let e := e.emit .flushRegs
      let e := e.emit (.SetJumpTarget .after)
      e.emit (.increment_addr_reg sreg)
    else
      let e := pushExtValueFromMem (rreg + DSP_REG_AXH0) dreg e
      let tmp := getFreeXReg
      let e := e.emit (.dsp_op_read_reg dreg .RCX .NONE)
      let e := e.emit (.dsp_op_read_reg DSP_REG_AR3 tmp .NONE)
      let e := e.emit (.XOR16 .RCX tmp)
      let e := e.emit (.TEST16 .RCX 0xfc00)
      let e := e.emit (.J_CC .CC_NE .not_equal)
      let e := pushExtValueFromMem2 (rreg + DSP_REG_AXL0) dreg e
      let e := e.emit .flushRegs
      let e := e.emit (.J .after)
      let e := e.emit (.SetJumpTarget .not_equal)
      let e := pushExtValueFromMem2 (rreg + DSP_REG_AXL0) DSP_REG_AR3 e
      let e := e.emit .flushRegs
      let e := e.emit (.SetJumpTarget .after)
      e.emit (.increment_addr_reg dreg)
  e.emit (.increase_addr_reg DSP_REG_AR3 DSP_REG_AR3)

/-- LDNM $ax0.d, $ax1.r, @$arS : as `ld`, with index registers added to both
pointers. -/
def ldnm (opc : Nat) (e : DSPEmitter) : DSPEmitter :=
  let dreg := ((opc >>> 5) &&& 0x1) % 256
  let rreg := ((opc >>> 4) &&& 0x1) % 256
  let sreg := (opc &&& 0x3) % 256
  let e :=
    if sreg ≠ DSP_REG_AR3 then
      let e := pushExtValueFromMem ((dreg <<< 1) + DSP_REG_AXL0) sreg e
      let tmp := getFreeXReg
      let e := e.emit (.dsp_op_read_reg sreg .RCX .NONE)
      let e := e.emit (.dsp_op_read_reg DSP_REG_AR3 tmp .NONE)
      let e := e.emit (.XOR16 .RCX tmp)
      let e := e.emit (.TEST16 .RCX 0xfc00)
      let e := e.emit (.J_CC .CC_NE .not_equal)
      let e := pushExtValueFromMem2 ((rreg <<< 1) + DSP_REG_AXL1) sreg e
      let e := e.emit .flushRegs
      let e := e.emit (.J .after)
      let e := e.emit (.SetJumpTarget .not_equal)
      let e := pushExtValueFromMem2 ((rreg <<< 1) + DSP_REG_AXL1) DSP_REG_AR3 e
      let e := e.emit .flushRegs
      let e := e.emit (.SetJumpTarget .after)
      e.emit (.increase_addr_reg sreg sreg)
    else
      let e := pushExtValueFromMem (rreg + DSP_REG_AXH0) dreg e
      let tmp := getFreeXReg
      let e := e.emit (.dsp_op_read_reg dreg .RCX .NONE)
      let e := e.emit (.dsp_op_read_reg DSP_REG_AR3 tmp .NONE)
      let e := e.emit (.XOR16 .RCX tmp)
      let e := e.emit (.TEST16 .RCX 0xfc00)
      let e := e.emit (.J_CC .CC_NE .not_equal)
      let e := pushExtValueFromMem2 (rreg + DSP_REG_AXL0) dreg e
      let e := e.emit .flushRegs
      let e := e.emit (.J .after)
      let e := e.emit (.SetJumpTarget .not_equal)
      let e := pushExtValueFromMem2 (rreg + DSP_REG_AXL0) DSP_REG_AR3 e
      let e := e.emit .flushRegs
      let e := e.emit (.SetJumpTarget .after)
      e.emit (.increase_addr_reg dreg dreg)
  e.emit (.increase_addr_reg DSP_REG_AR3 DSP_REG_AR3)

/-- Commit the staged values: write the low half of EBX to `storeIndex` (with the
40-bit-mode sign extension for an accumulator mid word staged alone), then the high
half of EBX to `storeIndex2`, and clear both tags (the ghost record `staged`
restarts). -/
def popExtValueToReg (e : DSPEmitter) : DSPEmitter :=
  let e :=
    if e.storeIndex ≠ -1 then
      let e := e.emit (.dsp_op_write_reg e.storeIndex.toNat .RBX)
      if e.storeIndex ≥ (DSP_REG_ACM0 : Int) ∧ e.storeIndex2 = -1 then
        let e := e.emit (.TEST32 .RBX (SR_40_MODE_BIT <<< 16))
        let e := e.emit (.J_CC .CC_Z .not_40bit)
        let e := e.emit (.MOVSX_32_16 .RAX .RBX)
        let e := e.emit (.SHR32 .RAX 16)
        let e := e.emit (.set_acc_h (e.storeIndex - (DSP_REG_ACM0 : Int)).toNat .RAX)
        let e := e.emit (.set_acc_l_imm (e.storeIndex - (DSP_REG_ACM0 : Int)).toNat 0)
        let e := e.emit .flushRegs
        e.emit (.SetJumpTarget .not_40bit)
      else e
    else e
  let e := { e with storeIndex := -1 }
  let e :=
    if e.storeIndex2 ≠ -1 then
      let e := e.emit (.SHR32 .RBX 16)
      e.emit (.dsp_op_write_reg e.storeIndex2.toNat .RBX)
    else e
  { e with storeIndex2 := -1, staged := [] }

/-- The handlers of the source file that stage a register write. -/
def stagingHandlers : List (Nat → DSPEmitter → DSPEmitter) :=
  [mv, l, ln, ls, lsn, lsm, lsnm, sl, sln, slm, slnm, ld, ldn, ldm, ldnm]

/-- The eight dual load-store handlers. -/
def dualLoadStoreHandlers : List (Nat → DSPEmitter → DSPEmitter) :=
  [ls, lsn, lsm, lsnm, sl, sln, slm, slnm]

/-- The four dual-load handlers. -/
def ldHandlers : List (Nat → DSPEmitter → DSPEmitter) :=
  [ld, ldn, ldm, ldnm]

/-- An accumulator mid word (ACM0 or ACM1). -/
def isAccMid (reg : Nat) : Prop := reg = DSP_REG_ACM0 ∨ reg = DSP_REG_ACM1

instance (reg : Nat) : Decidable (isAccMid reg) := by
  unfold isAccMid
  infer_instance

/-- A run-time state with the given register file, data memory and holding value
(EBX); the other host registers are zero and the ghost logs empty. -/
def stateOf (regs : Nat → Nat) (mem : Nat → Nat) (ebx : Nat) : DSPState :=
  { r := regs, dmem := mem, rax := 0, rbx := ebx, rcx := 0, tmp := 0, zf := false,
    memlog := [], brlog := [] }

/-- The addressing register that the dual-load handlers pair with AR3: the
register selected by bits 0..1 of the opcode, or, when those bits select AR3, the
register numbered by the `d` bit (bit 5). -/
def ldSource (opc : Nat) : Nat :=
  if opc &&& 3 ≠ DSP_REG_AR3 then opc &&& 3 else (opc >>> 5) &&& 1

/-- The primary destination tag staged by the dual-load handlers. -/
def ldPrimary (opc : Nat) : Nat :=
  if opc &&& 3 ≠ DSP_REG_AR3 then DSP_REG_AXL0 + 2 * ((opc >>> 5) &&& 1)
  else DSP_REG_AXH0 + ((opc >>> 4) &&& 1)

/-- The secondary destination tag staged by the dual-load handlers. -/
def ldSecondary (opc : Nat) : Nat :=
  if opc &&& 3 ≠ DSP_REG_AR3 then DSP_REG_AXL1 + 2 * ((opc >>> 4) &&& 1)
  else DSP_REG_AXL0 + ((opc >>> 4) &&& 1)

/-- The DSP register that one emitted instruction writes, if any. -/
def regWritten : Instr → Option Nat
  | .dsp_op_write_reg reg _ => some reg
  | .increment_addr_reg reg => some reg
  | .decrement_addr_reg reg => some reg
  | .increase_addr_reg reg _ => some reg
  | .set_acc_h reg _ => some (DSP_REG_ACH0 + reg)
  | .set_acc_l_imm reg _ => some (DSP_REG_ACL0 + reg)
  | _ => none

/-- Modelled from the spec: a saturating read that applies "the hardware's
accumulator saturation rule" to an accumulator mid word: in 40-bit mode an
accumulator whose high word is not the sign extension of its mid word reads as
0x7FFF when it is non-negative and as 0x8000 when it is negative.  The other
collaborators are those of `flatCollab`. -/
def clampCollab : Collab where
  increment := flatCollab.increment
  decrement := flatCollab.decrement
  increase := flatCollab.increase
  saturate := fun regs reg =>
    let hi := regs (DSP_REG_ACH0 + (reg - DSP_REG_ACM0)) % 65536
    let mid := regs reg % 65536
    if regs DSP_REG_SR &&& SR_40_MODE_BIT = 0 then mid
    else if (hi = 0 ∧ mid < 32768) ∨ (hi = 65535 ∧ 32768 ≤ mid) then mid
    else if hi < 32768 then 0x7FFF else 0x8000
  writable := flatCollab.writable

/-- Register file with AR0 = 0x0100, AR3 = 0x0200, accumulator 0 holding
0x01_1234_0000 (high word 1, mid word 0x1234) and SR in 40-bit mode: the
accumulator does not fit in 32 bits, so its saturated mid word is 0x7FFF. -/
def overflowRegs : Nat → Nat := fun k =>
  if k = DSP_REG_AR0 then 0x0100
  else if k = DSP_REG_AR3 then 0x0200
  else if k = DSP_REG_ACH0 then 0x0001
  else if k = DSP_REG_ACM0 then 0x1234
  else if k = DSP_REG_SR then 0x4000
  else 0

/-- Value left in addressing register `reg` by `increment_addr_reg reg` run in
state `st`. -/
def incremented (X : Collab) (st : DSPState) (reg : Nat) : Nat :=
  X.increment (st.r reg) (st.r (DSP_REG_WR0 + reg)) % 65536

/-- Value left in addressing register `reg` by `increase_addr_reg reg reg` run in
state `st`. -/
def indexAdded (X : Collab) (st : DSPState) (reg : Nat) : Nat :=
  X.increase (st.r reg) (st.r (DSP_REG_WR0 + reg)) (st.r (DSP_REG_IX0 + reg)) % 65536

/-- Register file in which AR0 = `ar0`, AR3 = `ar3` and every other register is 0. -/
def regsAt (ar0 ar3 : Nat) : Nat → Nat := fun k =>
  if k = DSP_REG_AR0 then ar0 else if k = DSP_REG_AR3 then ar3 else 0

/-- Data memory in which the word at address `a` is `0xA000 + a`. -/
def tagMem : Nat → Nat := fun a => 0xA000 + a

/-- Address of the second load of the dual-load code: the address in the source
register `src` when it lies in the page of the address in AR3, the address in AR3
otherwise. -/
def ldSecondAddr (st : DSPState) (src : Nat) : Nat :=
  if (st.r src % 65536) &&& 0xFC00 = (st.r DSP_REG_AR3 % 65536) &&& 0xFC00
  then st.r src % 65536 else st.r DSP_REG_AR3 % 65536

/-- The part of the dual-load code that all four variants share, for source
register `src`: first load, page test, and the two arms with the second load. -/
def ldCommonCode (src : Nat) : List Instr :=
  [.dsp_op_read_reg src .TMP .ZERO, .dmem_read .TMP, .MOVZX_32_16 .RBX .RAX,
   .dsp_op_read_reg src .RCX .NONE, .dsp_op_read_reg DSP_REG_AR3 .TMP .NONE,
   .XOR16 .RCX .TMP, .TEST16 .RCX 0xfc00, .J_CC .CC_NE .not_equal,
   .dsp_op_read_reg src .TMP .ZERO, .dmem_read .TMP, .SHL32 .RAX 16,
   .OR32 .RBX .RAX, .flushRegs, .J .after, .SetJumpTarget .not_equal,
   .dsp_op_read_reg DSP_REG_AR3 .TMP .ZERO, .dmem_read .TMP, .SHL32 .RAX 16,
   .OR32 .RBX .RAX, .flushRegs, .SetJumpTarget .after]

/-- The handlers of the source file that stage nothing. -/
def plainHandlers : List (Nat → DSPEmitter → DSPEmitter) :=
  [dr, ir, nr, s, sn]

/-- The handlers of the source file that stage one register write. -/
def singleHandlers : List (Nat → DSPEmitter → DSPEmitter) :=
  [mv, l, ln, ls, lsn, lsm, lsnm, sl, sln, slm, slnm]

/-- Every extended-op handler of the source file. -/
def allHandlers : List (Nat → DSPEmitter → DSPEmitter) :=
  [dr, ir, nr, mv, s, sn, l, ln, ls, lsn, lsm, lsnm, sl, sln, slm, slnm, ld, ldn, ldm, ldnm]

/-- Number of assignments to `storeIndex` in a record of tag assignments. -/
def countStoreIndex : List TagWrite → Nat
  | [] => 0
  | .storeIndex _ :: rest => countStoreIndex rest + 1
  | .storeIndex2 _ :: rest => countStoreIndex rest

/-- Number of assignments to `storeIndex2` in a record of tag assignments. -/
def countStoreIndex2 : List TagWrite → Nat
  | [] => 0
  | .storeIndex _ :: rest => countStoreIndex2 rest
  | .storeIndex2 _ :: rest => countStoreIndex2 rest + 1

/-- Register file given by a list of (index, value) pairs; registers not listed
are 0. -/
def regsOf (l : List (Nat × Nat)) : Nat → Nat := fun k => (l.lookup k).getD 0

/-! ## Theorems -/

/-! ### Opcode fields and bit arithmetic -/

theorem and3_le (n : Nat) : n &&& 3 ≤ 3 := Nat.and_le_right

theorem and1_le (n : Nat) : n &&& 1 ≤ 1 := Nat.and_le_right

theorem and7_le (n : Nat) : n &&& 7 ≤ 7 := Nat.and_le_right

theorem bits16_31 (v : Nat) : v % 4294967296 / 65536 % 65536 = v / 65536 % 65536 := by
  omega

theorem and_two_pow_eq_zero (x i : Nat) : x &&& 2 ^ i = 0 ↔ x.testBit i = false := by
  constructor
  · intro h
    have h2 := congrArg (fun y => y.testBit i) h
    simpa [Nat.testBit_and, Nat.testBit_two_pow_self] using h2
  · intro h
    apply Nat.eq_of_testBit_eq
    intro j
    by_cases hj : i = j
    · subst hj
      simp [Nat.testBit_and, h]
    · simp [Nat.testBit_and, Nat.testBit_two_pow, hj]

/-- Testing bit 30 of the 32-bit holding value is testing the 40-bit-mode bit of
the status-register copy held in its bits 16..31. -/
theorem mode_bit_test (v : Nat) :
    v % 4294967296 &&& 1073741824 = 0 ↔ (v / 65536 % 65536) &&& SR_40_MODE_BIT = 0 := by
  have e1 : (1073741824 : Nat) = 2 ^ 30 := by norm_num
  have e2 : SR_40_MODE_BIT = 2 ^ 14 := by unfold SR_40_MODE_BIT; norm_num
  have e3 : (4294967296 : Nat) = 2 ^ 32 := by norm_num
  have e4 : (65536 : Nat) = 2 ^ 16 := by norm_num
  rw [e1, e2, e3, e4, and_two_pow_eq_zero, and_two_pow_eq_zero, ← Nat.shiftRight_eq_div_pow,
    Nat.testBit_mod_two_pow, Nat.testBit_mod_two_pow, Nat.testBit_shiftRight]
  simp

theorem extendInto_mod (ext : DSPJitSignExtend) (old v : Nat) :
    extendInto ext old v % 65536 = v % 65536 := by
  cases ext <;> simp only [extendInto]
  · split_ifs <;> omega
  · omega
  · omega

theorem xor16_mod (a b : Nat) :
    (a % 65536 ^^^ b % 65536) % 65536 = a % 65536 ^^^ b % 65536 := by
  apply Nat.mod_eq_of_lt
  have h : (65536 : Nat) = 2 ^ 16 := by norm_num
  rw [h]
  exact Nat.xor_lt_two_pow (Nat.mod_lt _ (by norm_num)) (Nat.mod_lt _ (by norm_num))

/-- XOR followed by TEST with 0xFC00 compares the bits outside the low 10 bits. -/
theorem page_test_iff (a b : Nat) :
    (a ^^^ b) &&& 64512 = 0 ↔ a &&& 64512 = b &&& 64512 := by
  rw [Nat.and_xor_distrib_right, Nat.xor_eq_zero]

theorem shl16 (x : Nat) : x * 65536 % 4294967296 = x % 65536 * 65536 := by
  omega

theorem mod16_mod32 (x : Nat) : x % 65536 % 4294967296 = x % 65536 := by
  omega

theorem hold_eq (a b : Nat) :
    a % 65536 ||| b % 65536 * 65536 = b % 65536 * 65536 + a % 65536 := by
  have h := Nat.mul_add_lt_is_or (i := 16) (b := a % 65536) (Nat.mod_lt _ (by norm_num))
    (b % 65536)
  rw [Nat.or_comm, Nat.mul_comm]
  exact h.symm

theorem hold_lo (a b : Nat) : (a % 65536 ||| b % 65536 * 65536) % 65536 = a % 65536 := by
  rw [hold_eq]
  omega

theorem hold_hi (a b : Nat) :
    (a % 65536 ||| b % 65536 * 65536) % 4294967296 / 65536 % 65536 = b % 65536 := by
  rw [hold_eq]
  omega

/-! ### Code emitted by the handlers -/

theorem mv_emit (opc : Nat) (e : DSPEmitter) :
    mv opc e = ⟨((DSP_REG_AXL0 + ((opc >>> 2) &&& 3) : Nat) : Int), e.storeIndex2, e.code ++
      [if isAccMid (DSP_REG_ACL0 + (opc &&& 3))
        then .dsp_op_read_reg_and_saturate (DSP_REG_ACL0 + (opc &&& 3)) .RBX .ZERO
        else .dsp_op_read_reg (DSP_REG_ACL0 + (opc &&& 3)) .RBX .ZERO],
      e.staged ++ [.storeIndex ((DSP_REG_AXL0 + ((opc >>> 2) &&& 3) : Nat) : Int)]⟩ := by
  have h := and3_le opc
  have h2 := and3_le (opc >>> 2)
  unfold mv
  generalize opc &&& 3 = a at *
  generalize (opc >>> 2) &&& 3 = b at *
  interval_cases a <;> interval_cases b <;>
    simp [isAccMid, DSP_REG_ACL0, DSP_REG_ACM0, DSP_REG_ACM1, DSP_REG_AXL0,
      pushExtValueFromReg, emit]

theorem s_emit (opc : Nat) (e : DSPEmitter) :
    s opc e = ⟨e.storeIndex, e.storeIndex2, e.code ++
      [.dsp_op_read_reg (opc &&& 3) .RAX .ZERO,
       if isAccMid (DSP_REG_ACL0 + ((opc >>> 3) &&& 3))
        then .dsp_op_read_reg_and_saturate (DSP_REG_ACL0 + ((opc >>> 3) &&& 3)) .TMP .ZERO
        else .dsp_op_read_reg (DSP_REG_ACL0 + ((opc >>> 3) &&& 3)) .TMP .ZERO,
       .dmem_write .TMP, .increment_addr_reg (opc &&& 3)],
      e.staged⟩ := by
  have h := and3_le opc
  have h2 := and3_le (opc >>> 3)
  have e0 : (opc &&& 3) % 256 = opc &&& 3 := Nat.mod_eq_of_lt (by omega)
  unfold s
  rw [e0]
  generalize opc &&& 3 = a at *
  generalize (opc >>> 3) &&& 3 = b at *
  interval_cases b <;>
    simp [isAccMid, DSP_REG_ACL0, DSP_REG_ACM0, DSP_REG_ACM1, emit, getFreeXReg]

theorem sn_emit (opc : Nat) (e : DSPEmitter) :
    sn opc e = ⟨e.storeIndex, e.storeIndex2, e.code ++
      [.dsp_op_read_reg (opc &&& 3) .RAX .ZERO,
       if isAccMid (DSP_REG_ACL0 + ((opc >>> 3) &&& 3))
        then .dsp_op_read_reg_and_saturate (DSP_REG_ACL0 + ((opc >>> 3) &&& 3)) .TMP .ZERO
        else .dsp_op_read_reg (DSP_REG_ACL0 + ((opc >>> 3) &&& 3)) .TMP .ZERO,
       .dmem_write .TMP, .increase_addr_reg (opc &&& 3) (opc &&& 3)],
      e.staged⟩ := by
  have h := and3_le opc
  have h2 := and3_le (opc >>> 3)
  have e0 : (opc &&& 3) % 256 = opc &&& 3 := Nat.mod_eq_of_lt (by omega)
  unfold sn
  rw [e0]
  generalize opc &&& 3 = a at *
  generalize (opc >>> 3) &&& 3 = b at *
  interval_cases b <;>
    simp [isAccMid, DSP_REG_ACL0, DSP_REG_ACM0, DSP_REG_ACM1, emit, getFreeXReg]

theorem l_emit (opc : Nat) (e : DSPEmitter) :
    l opc e = ⟨((DSP_REG_AXL0 + ((opc >>> 3) &&& 7) : Nat) : Int), e.storeIndex2, e.code ++
      ([.dsp_op_read_reg (opc &&& 3) .TMP .ZERO, .dmem_read .TMP, .MOVZX_32_16 .RBX .RAX] ++
       (if isAccMid (DSP_REG_AXL0 + ((opc >>> 3) &&& 7))
        then [.dsp_op_read_reg DSP_REG_SR .RAX .NONE, .SHL32 .RAX 16, .OR32 .RBX .RAX]
        else []) ++
       [.increment_addr_reg (opc &&& 3)]),
      e.staged ++ [.storeIndex ((DSP_REG_AXL0 + ((opc >>> 3) &&& 7) : Nat) : Int)]⟩ := by
  have h := and3_le opc
  have h2 := and7_le (opc >>> 3)
  have e0 : (opc &&& 3) % 256 = opc &&& 3 := Nat.mod_eq_of_lt (by omega)
  unfold l
  rw [e0]
  generalize opc &&& 3 = a at *
  generalize (opc >>> 3) &&& 7 = b at *
  interval_cases b <;>
    simp [isAccMid, DSP_REG_AXL0, DSP_REG_ACM0, DSP_REG_ACM1, emit, getFreeXReg,
      pushExtValueFromMem]

theorem ln_emit (opc : Nat) (e : DSPEmitter) :
    ln opc e = ⟨((DSP_REG_AXL0 + ((opc >>> 3) &&& 7) : Nat) : Int), e.storeIndex2, e.code ++
      ([.dsp_op_read_reg (opc &&& 3) .TMP .ZERO, .dmem_read .TMP, .MOVZX_32_16 .RBX .RAX] ++
       (if isAccMid (DSP_REG_AXL0 + ((opc >>> 3) &&& 7))
        then [.dsp_op_read_reg DSP_REG_SR .RAX .NONE, .SHL32 .RAX 16, .OR32 .RBX .RAX]
        else []) ++
       [.increase_addr_reg (opc &&& 3) (opc &&& 3)]),
      e.staged ++ [.storeIndex ((DSP_REG_AXL0 + ((opc >>> 3) &&& 7) : Nat) : Int)]⟩ := by
  have h := and3_le opc
  have h2 := and7_le (opc >>> 3)
  have e0 : (opc &&& 3) % 256 = opc &&& 3 := Nat.mod_eq_of_lt (by omega)
  unfold ln
  rw [e0]
  generalize opc &&& 3 = a at *
  generalize (opc >>> 3) &&& 7 = b at *
  interval_cases b <;>
    simp [isAccMid, DSP_REG_AXL0, DSP_REG_ACM0, DSP_REG_ACM1, emit, getFreeXReg,
      pushExtValueFromMem]

theorem ls_emit (opc : Nat) (e : DSPEmitter) :
    ls opc e = ⟨((DSP_REG_AXL0 + ((opc >>> 4) &&& 3) : Nat) : Int), e.storeIndex2, e.code ++
      [.dsp_op_read_reg DSP_REG_AR3 .RAX .ZERO,
       .dsp_op_read_reg (DSP_REG_ACM0 + (opc &&& 1)) .TMP .ZERO,
       .dmem_write .TMP,
       .dsp_op_read_reg DSP_REG_AR0 .TMP .ZERO, .dmem_read .TMP, .MOVZX_32_16 .RBX .RAX,
       .increment_addr_reg DSP_REG_AR3, .increment_addr_reg DSP_REG_AR0],
      e.staged ++ [.storeIndex ((DSP_REG_AXL0 + ((opc >>> 4) &&& 3) : Nat) : Int)]⟩ := by
  have h1 := and1_le opc
  have h3 := and3_le (opc >>> 4)
  have e1 : (opc &&& 1) % 256 = opc &&& 1 := Nat.mod_eq_of_lt (by omega)
  have e2 : (((opc >>> 4) &&& 3) + DSP_REG_AXL0) % 256 = DSP_REG_AXL0 + ((opc >>> 4) &&& 3) := by
    unfold DSP_REG_AXL0
    omega
  have e3 : ¬ (opc &&& 1 ≥ DSP_REG_ACM0) := by
    unfold DSP_REG_ACM0
    omega
  simp only [ls, e1, e2, e3, if_false, emit, pushExtValueFromMem, getFreeXReg,
    List.append_assoc, List.singleton_append, List.cons_append, List.nil_append,
    Nat.add_comm (opc &&& 1)]

theorem lsn_emit (opc : Nat) (e : DSPEmitter) :
    lsn opc e = ⟨((DSP_REG_AXL0 + ((opc >>> 4) &&& 3) : Nat) : Int), e.storeIndex2, e.code ++
      [.dsp_op_read_reg DSP_REG_AR3 .RAX .ZERO,
       .dsp_op_read_reg (DSP_REG_ACM0 + (opc &&& 1)) .TMP .ZERO,
       .dmem_write .TMP,
       .dsp_op_read_reg DSP_REG_AR0 .TMP .ZERO, .dmem_read .TMP, .MOVZX_32_16 .RBX .RAX,
       .increment_addr_reg DSP_REG_AR3, .increase_addr_reg DSP_REG_AR0 DSP_REG_AR0],
      e.staged ++ [.storeIndex ((DSP_REG_AXL0 + ((opc >>> 4) &&& 3) : Nat) : Int)]⟩ := by
  have h1 := and1_le opc
  have h3 := and3_le (opc >>> 4)
  have e1 : (opc &&& 1) % 256 = opc &&& 1 := Nat.mod_eq_of_lt (by omega)
  have e2 : (((opc >>> 4) &&& 3) + DSP_REG_AXL0) % 256 = DSP_REG_AXL0 + ((opc >>> 4) &&& 3) := by
    unfold DSP_REG_AXL0
    omega
  have e3 : ¬ (opc &&& 1 ≥ DSP_REG_ACM0) := by
    unfold DSP_REG_ACM0
    omega
  simp only [lsn, e1, e2, e3, if_false, emit, pushExtValueFromMem, getFreeXReg,
    List.append_assoc, List.singleton_append, List.cons_append, List.nil_append,
    Nat.add_comm (opc &&& 1)]

theorem lsm_emit (opc : Nat) (e : DSPEmitter) :
    lsm opc e = ⟨((DSP_REG_AXL0 + ((opc >>> 4) &&& 3) : Nat) : Int), e.storeIndex2, e.code ++
      [.dsp_op_read_reg DSP_REG_AR3 .RAX .ZERO,
       .dsp_op_read_reg (DSP_REG_ACM0 + (opc &&& 1)) .TMP .ZERO,
       .dmem_write .TMP,
       .dsp_op_read_reg DSP_REG_AR0 .TMP .ZERO, .dmem_read .TMP, .MOVZX_32_16 .RBX .RAX,
       .increase_addr_reg DSP_REG_AR3 DSP_REG_AR3, .increment_addr_reg DSP_REG_AR0],
      e.staged ++ [.storeIndex ((DSP_REG_AXL0 + ((opc >>> 4) &&& 3) : Nat) : Int)]⟩ := by
  have h1 := and1_le opc
  have h3 := and3_le (opc >>> 4)
  have e1 : (opc &&& 1) % 256 = opc &&& 1 := Nat.mod_eq_of_lt (by omega)
  have e2 : (((opc >>> 4) &&& 3) + DSP_REG_AXL0) % 256 = DSP_REG_AXL0 + ((opc >>> 4) &&& 3) := by
    unfold DSP_REG_AXL0
    omega
  have e3 : ¬ (opc &&& 1 ≥ DSP_REG_ACM0) := by
    unfold DSP_REG_ACM0
    omega
  simp only [lsm, e1, e2, e3, if_false, emit, pushExtValueFromMem, getFreeXReg,
    List.append_assoc, List.singleton_append, List.cons_append, List.nil_append,
    Nat.add_comm (opc &&& 1)]

theorem lsnm_emit (opc : Nat) (e : DSPEmitter) :
    lsnm opc e = ⟨((DSP_REG_AXL0 + ((opc >>> 4) &&& 3) : Nat) : Int), e.storeIndex2, e.code ++
      [.dsp_op_read_reg DSP_REG_AR3 .RAX .ZERO,
       .dsp_op_read_reg (DSP_REG_ACM0 + (opc &&& 1)) .TMP .ZERO,
       .dmem_write .TMP,
       .dsp_op_read_reg DSP_REG_AR0 .TMP .ZERO, .dmem_read .TMP, .MOVZX_32_16 .RBX .RAX,
       .increase_addr_reg DSP_REG_AR3 DSP_REG_AR3, .increase_addr_reg DSP_REG_AR0 DSP_REG_AR0],
      e.staged ++ [.storeIndex ((DSP_REG_AXL0 + ((opc >>> 4) &&& 3) : Nat) : Int)]⟩ := by
  have h1 := and1_le opc
  have h3 := and3_le (opc >>> 4)
  have e1 : (opc &&& 1) % 256 = opc &&& 1 := Nat.mod_eq_of_lt (by omega)
  have e2 : (((opc >>> 4) &&& 3) + DSP_REG_AXL0) % 256 = DSP_REG_AXL0 + ((opc >>> 4) &&& 3) := by
    unfold DSP_REG_AXL0
    omega
  have e3 : ¬ (opc &&& 1 ≥ DSP_REG_ACM0) := by
    unfold DSP_REG_ACM0
    omega
  simp only [lsnm, e1, e2, e3, if_false, emit, pushExtValueFromMem, getFreeXReg,
    List.append_assoc, List.singleton_append, List.cons_append, List.nil_append,
    Nat.add_comm (opc &&& 1)]

theorem sl_emit (opc : Nat) (e : DSPEmitter) :
    sl opc e = ⟨((DSP_REG_AXL0 + ((opc >>> 4) &&& 3) : Nat) : Int), e.storeIndex2, e.code ++
      [.dsp_op_read_reg DSP_REG_AR0 .RAX .ZERO,
       .dsp_op_read_reg (DSP_REG_ACM0 + (opc &&& 1)) .TMP .ZERO,
       .dmem_write .TMP,
       .dsp_op_read_reg DSP_REG_AR3 .TMP .ZERO, .dmem_read .TMP, .MOVZX_32_16 .RBX .RAX,
       .increment_addr_reg DSP_REG_AR3, .increment_addr_reg DSP_REG_AR0],
      e.staged ++ [.storeIndex ((DSP_REG_AXL0 + ((opc >>> 4) &&& 3) : Nat) : Int)]⟩ := by
  have h1 := and1_le opc
  have h3 := and3_le (opc >>> 4)
  have e1 : (opc &&& 1) % 256 = opc &&& 1 := Nat.mod_eq_of_lt (by omega)
  have e2 : (((opc >>> 4) &&& 3) + DSP_REG_AXL0) % 256 = DSP_REG_AXL0 + ((opc >>> 4) &&& 3) := by
    unfold DSP_REG_AXL0
    omega
  have e3 : ¬ (opc &&& 1 ≥ DSP_REG_ACM0) := by
    unfold DSP_REG_ACM0
    omega
  simp only [sl, e1, e2, e3, if_false, emit, pushExtValueFromMem, getFreeXReg,
    List.append_assoc, List.singleton_append, List.cons_append, List.nil_append,
    Nat.add_comm (opc &&& 1)]

theorem sln_emit (opc : Nat) (e : DSPEmitter) :
    sln opc e = ⟨((DSP_REG_AXL0 + ((opc >>> 4) &&& 3) : Nat) : Int), e.storeIndex2, e.code ++
      [.dsp_op_read_reg DSP_REG_AR0 .RAX .ZERO,
       .dsp_op_read_reg (DSP_REG_ACM0 + (opc &&& 1)) .TMP .ZERO,
       .dmem_write .TMP,
       .dsp_op_read_reg DSP_REG_AR3 .TMP .ZERO, .dmem_read .TMP, .MOVZX_32_16 .RBX .RAX,
       .increment_addr_reg DSP_REG_AR3, .increase_addr_reg DSP_REG_AR0 DSP_REG_AR0],
      e.staged ++ [.storeIndex ((DSP_REG_AXL0 + ((opc >>> 4) &&& 3) : Nat) : Int)]⟩ := by
  have h1 := and1_le opc
  have h3 := and3_le (opc >>> 4)
  have e1 : (opc &&& 1) % 256 = opc &&& 1 := Nat.mod_eq_of_lt (by omega)
  have e2 : (((opc >>> 4) &&& 3) + DSP_REG_AXL0) % 256 = DSP_REG_AXL0 + ((opc >>> 4) &&& 3) := by
    unfold DSP_REG_AXL0
    omega
  have e3 : ¬ (opc &&& 1 ≥ DSP_REG_ACM0) := by
    unfold DSP_REG_ACM0
    omega
  simp only [sln, e1, e2, e3, if_false, emit, pushExtValueFromMem, getFreeXReg,
    List.append_assoc, List.singleton_append, List.cons_append, List.nil_append,
    Nat.add_comm (opc &&& 1)]

theorem slm_emit (opc : Nat) (e : DSPEmitter) :
    slm opc e = ⟨((DSP_REG_AXL0 + ((opc >>> 4) &&& 3) : Nat) : Int), e.storeIndex2, e.code ++
      [.dsp_op_read_reg DSP_REG_AR0 .RAX .ZERO,
       .dsp_op_read_reg (DSP_REG_ACM0 + (opc &&& 1)) .TMP .ZERO,
       .dmem_write .TMP,
       .dsp_op_read_reg DSP_REG_AR3 .TMP .ZERO, .dmem_read .TMP, .MOVZX_32_16 .RBX .RAX,
       .increase_addr_reg DSP_REG_AR3 DSP_REG_AR3, .increment_addr_reg DSP_REG_AR0],
      e.staged ++ [.storeIndex ((DSP_REG_AXL0 + ((opc >>> 4) &&& 3) : Nat) : Int)]⟩ := by
  have h1 := and1_le opc
  have h3 := and3_le (opc >>> 4)
  have e1 : (opc &&& 1) % 256 = opc &&& 1 := Nat.mod_eq_of_lt (by omega)
  have e2 : (((opc >>> 4) &&& 3) + DSP_REG_AXL0) % 256 = DSP_REG_AXL0 + ((opc >>> 4) &&& 3) := by
    unfold DSP_REG_AXL0
    omega
  have e3 : ¬ (opc &&& 1 ≥ DSP_REG_ACM0) := by
    unfold DSP_REG_ACM0
    omega
  simp only [slm, e1, e2, e3, if_false, emit, pushExtValueFromMem, getFreeXReg,
    List.append_assoc, List.singleton_append, List.cons_append, List.nil_append,
    Nat.add_comm (opc &&& 1)]

theorem slnm_emit (opc : Nat) (e : DSPEmitter) :
    slnm opc e = ⟨((DSP_REG_AXL0 + ((opc >>> 4) &&& 3) : Nat) : Int), e.storeIndex2, e.code ++
      [.dsp_op_read_reg DSP_REG_AR0 .RAX .ZERO,
       .dsp_op_read_reg (DSP_REG_ACM0 + (opc &&& 1)) .TMP .ZERO,
       .dmem_write .TMP,
       .dsp_op_read_reg DSP_REG_AR3 .TMP .ZERO, .dmem_read .TMP, .MOVZX_32_16 .RBX .RAX,
       .increase_addr_reg DSP_REG_AR3 DSP_REG_AR3, .increase_addr_reg DSP_REG_AR0 DSP_REG_AR0],
      e.staged ++ [.storeIndex ((DSP_REG_AXL0 + ((opc >>> 4) &&& 3) : Nat) : Int)]⟩ := by
  have h1 := and1_le opc
  have h3 := and3_le (opc >>> 4)
  have e1 : (opc &&& 1) % 256 = opc &&& 1 := Nat.mod_eq_of_lt (by omega)
  have e2 : (((opc >>> 4) &&& 3) + DSP_REG_AXL0) % 256 = DSP_REG_AXL0 + ((opc >>> 4) &&& 3) := by
    unfold DSP_REG_AXL0
    omega
  have e3 : ¬ (opc &&& 1 ≥ DSP_REG_ACM0) := by
    unfold DSP_REG_ACM0
    omega
  simp only [slnm, e1, e2, e3, if_false, emit, pushExtValueFromMem, getFreeXReg,
    List.append_assoc, List.singleton_append, List.cons_append, List.nil_append,
    Nat.add_comm (opc &&& 1)]

theorem ldSource_lt (opc : Nat) : ldSource opc < 3 := by
  have h0 := and3_le opc
  have h1 := and1_le (opc >>> 5)
  unfold ldSource DSP_REG_AR3
  split_ifs <;> omega

theorem ldPrimary_range (opc : Nat) : 24 ≤ ldPrimary opc ∧ ldPrimary opc ≤ 27 := by
  have h1 := and1_le (opc >>> 5)
  have h2 := and1_le (opc >>> 4)
  unfold ldPrimary DSP_REG_AXL0 DSP_REG_AXH0
  split_ifs <;> omega

theorem ldSecondary_range (opc : Nat) : 24 ≤ ldSecondary opc ∧ ldSecondary opc ≤ 27 := by
  have h2 := and1_le (opc >>> 4)
  unfold ldSecondary DSP_REG_AXL0 DSP_REG_AXL1
  split_ifs <;> omega

theorem ld_emit (opc : Nat) (e : DSPEmitter) :
    ld opc e = ⟨(ldPrimary opc : Int), (ldSecondary opc : Int), e.code ++
      [.dsp_op_read_reg (ldSource opc) .TMP .ZERO, .dmem_read .TMP, .MOVZX_32_16 .RBX .RAX,
       .dsp_op_read_reg (ldSource opc) .RCX .NONE, .dsp_op_read_reg DSP_REG_AR3 .TMP .NONE,
       .XOR16 .RCX .TMP, .TEST16 .RCX 0xfc00, .J_CC .CC_NE .not_equal,
       .dsp_op_read_reg (ldSource opc) .TMP .ZERO, .dmem_read .TMP, .SHL32 .RAX 16,
       .OR32 .RBX .RAX, .flushRegs, .J .after, .SetJumpTarget .not_equal,
       .dsp_op_read_reg DSP_REG_AR3 .TMP .ZERO, .dmem_read .TMP, .SHL32 .RAX 16,
       .OR32 .RBX .RAX, .flushRegs, .SetJumpTarget .after,
       .increment_addr_reg (ldSource opc), .increment_addr_reg DSP_REG_AR3],
      e.staged ++ [.storeIndex (ldPrimary opc : Int), .storeIndex2 (ldSecondary opc : Int),
        .storeIndex2 (ldSecondary opc : Int)]⟩ := by
  have h0 := and3_le opc
  have h1 := and1_le (opc >>> 4)
  have h2 := and1_le (opc >>> 5)
  have e0 : (opc &&& 3) % 256 = opc &&& 3 := Nat.mod_eq_of_lt (by omega)
  have e1 : ((opc >>> 4) &&& 1) % 256 = (opc >>> 4) &&& 1 := Nat.mod_eq_of_lt (by omega)
  have e2 : ((opc >>> 5) &&& 1) % 256 = (opc >>> 5) &&& 1 := Nat.mod_eq_of_lt (by omega)
  have e4 : ∀ x : Nat, (x <<< 1) + DSP_REG_AXL0 = DSP_REG_AXL0 + 2 * x := by
    intro x
    rw [Nat.shiftLeft_eq]
    omega
  have e5 : ∀ x : Nat, (x <<< 1) + DSP_REG_AXL1 = DSP_REG_AXL1 + 2 * x := by
    intro x
    rw [Nat.shiftLeft_eq]
    omega
  have e6 : ∀ x : Nat, x + DSP_REG_AXH0 = DSP_REG_AXH0 + x := fun x => Nat.add_comm _ _
  have e7 : ∀ x : Nat, x + DSP_REG_AXL0 = DSP_REG_AXL0 + x := fun x => Nat.add_comm _ _
  have e8 : DSP_REG_AR3 % 256 = DSP_REG_AR3 := rfl
  by_cases hss : opc &&& 3 = DSP_REG_AR3
  · simp only [e8, ld, ldSource, ldPrimary, ldSecondary, e0, e1, e2, e6, e7, hss, ne_eq,
      not_true_eq_false, if_false, emit, pushExtValueFromMem, pushExtValueFromMem2,
      getFreeXReg, List.append_assoc, List.singleton_append, List.cons_append, List.nil_append]
  · simp only [ld, ldSource, ldPrimary, ldSecondary, e0, e1, e2, e4, e5, hss, ne_eq,
      not_false_eq_true, if_true, emit, pushExtValueFromMem, pushExtValueFromMem2,
      getFreeXReg, List.append_assoc, List.singleton_append, List.cons_append, List.nil_append]

theorem ldn_emit (opc : Nat) (e : DSPEmitter) :
    ldn opc e = ⟨(ldPrimary opc : Int), (ldSecondary opc : Int), e.code ++
      [.dsp_op_read_reg (ldSource opc) .TMP .ZERO, .dmem_read .TMP, .MOVZX_32_16 .RBX .RAX,
       .dsp_op_read_reg (ldSource opc) .RCX .NONE, .dsp_op_read_reg DSP_REG_AR3 .TMP .NONE,
       .XOR16 .RCX .TMP, .TEST16 .RCX 0xfc00, .J_CC .CC_NE .not_equal,
       .dsp_op_read_reg (ldSource opc) .TMP .ZERO, .dmem_read .TMP, .SHL32 .RAX 16,
       .OR32 .RBX .RAX, .flushRegs, .J .after, .SetJumpTarget .not_equal,
       .dsp_op_read_reg DSP_REG_AR3 .TMP .ZERO, .dmem_read .TMP, .SHL32 .RAX 16,
       .OR32 .RBX .RAX, .flushRegs, .SetJumpTarget .after,
       .increase_addr_reg (ldSource opc) (ldSource opc), .increment_addr_reg DSP_REG_AR3],
      e.staged ++ [.storeIndex (ldPrimary opc : Int), .storeIndex2 (ldSecondary opc : Int),
        .storeIndex2 (ldSecondary opc : Int)]⟩ := by
  have h0 := and3_le opc
  have h1 := and1_le (opc >>> 4)
  have h2 := and1_le (opc >>> 5)
  have e0 : (opc &&& 3) % 256 = opc &&& 3 := Nat.mod_eq_of_lt (by omega)
  have e1 : ((opc >>> 4) &&& 1) % 256 = (opc >>> 4) &&& 1 := Nat.mod_eq_of_lt (by omega)
  have e2 : ((opc >>> 5) &&& 1) % 256 = (opc >>> 5) &&& 1 := Nat.mod_eq_of_lt (by omega)
  have e4 : ∀ x : Nat, (x <<< 1) + DSP_REG_AXL0 = DSP_REG_AXL0 + 2 * x := by
    intro x
    rw [Nat.shiftLeft_eq]
    omega
  have e5 : ∀ x : Nat, (x <<< 1) + DSP_REG_AXL1 = DSP_REG_AXL1 + 2 * x := by
    intro x
    rw [Nat.shiftLeft_eq]
    omega
  have e6 : ∀ x : Nat, x + DSP_REG_AXH0 = DSP_REG_AXH0 + x := fun x => Nat.add_comm _ _
  have e7 : ∀ x : Nat, x + DSP_REG_AXL0 = DSP_REG_AXL0 + x := fun x => Nat.add_comm _ _
  have e8 : DSP_REG_AR3 % 256 = DSP_REG_AR3 := rfl
  by_cases hss : opc &&& 3 = DSP_REG_AR3
  · simp only [e8, ldn, ldSource, ldPrimary, ldSecondary, e0, e1, e2, e6, e7, hss, ne_eq,
      not_true_eq_false, if_false, emit, pushExtValueFromMem, pushExtValueFromMem2,
      getFreeXReg, List.append_assoc, List.singleton_append, List.cons_append, List.nil_append]
  · simp only [ldn, ldSource, ldPrimary, ldSecondary, e0, e1, e2, e4, e5, hss, ne_eq,
      not_false_eq_true, if_true, emit, pushExtValueFromMem, pushExtValueFromMem2,
      getFreeXReg, List.append_assoc, List.singleton_append, List.cons_append, List.nil_append]

theorem ldm_emit (opc : Nat) (e : DSPEmitter) :
    ldm opc e = ⟨(ldPrimary opc : Int), (ldSecondary opc : Int), e.code ++
      [.dsp_op_read_reg (ldSource opc) .TMP .ZERO, .dmem_read .TMP, .MOVZX_32_16 .RBX .RAX,
       .dsp_op_read_reg (ldSource opc) .RCX .NONE, .dsp_op_read_reg DSP_REG_AR3 .TMP .NONE,
       .XOR16 .RCX .TMP, .TEST16 .RCX 0xfc00, .J_CC .CC_NE .not_equal,
       .dsp_op_read_reg (ldSource opc) .TMP .ZERO, .dmem_read .TMP, .SHL32 .RAX 16,
       .OR32 .RBX .RAX, .flushRegs, .J .after, .SetJumpTarget .not_equal,
       .dsp_op_read_reg DSP_REG_AR3 .TMP .ZERO, .dmem_read .TMP, .SHL32 .RAX 16,
       .OR32 .RBX .RAX, .flushRegs, .SetJumpTarget .after,
       .increment_addr_reg (ldSource opc), .increase_addr_reg DSP_REG_AR3 DSP_REG_AR3],
      e.staged ++ [.storeIndex (ldPrimary opc : Int), .storeIndex2 (ldSecondary opc : Int),
        .storeIndex2 (ldSecondary opc : Int)]⟩ := by
  have h0 := and3_le opc
  have h1 := and1_le (opc >>> 4)
  have h2 := and1_le (opc >>> 5)
  have e0 : (opc &&& 3) % 256 = opc &&& 3 := Nat.mod_eq_of_lt (by omega)
  have e1 : ((opc >>> 4) &&& 1) % 256 = (opc >>> 4) &&& 1 := Nat.mod_eq_of_lt (by omega)
  have e2 : ((opc >>> 5) &&& 1) % 256 = (opc >>> 5) &&& 1 := Nat.mod_eq_of_lt (by omega)
  have e4 : ∀ x : Nat, (x <<< 1) + DSP_REG_AXL0 = DSP_REG_AXL0 + 2 * x := by
    intro x
    rw [Nat.shiftLeft_eq]
    omega
  have e5 : ∀ x : Nat, (x <<< 1) + DSP_REG_AXL1 = DSP_REG_AXL1 + 2 * x := by
    intro x
    rw [Nat.shiftLeft_eq]
    omega
  have e6 : ∀ x : Nat, x + DSP_REG_AXH0 = DSP_REG_AXH0 + x := fun x => Nat.add_comm _ _
  have e7 : ∀ x : Nat, x + DSP_REG_AXL0 = DSP_REG_AXL0 + x := fun x => Nat.add_comm _ _
  have e8 : DSP_REG_AR3 % 256 = DSP_REG_AR3 := rfl
  by_cases hss : opc &&& 3 = DSP_REG_AR3
  · simp only [e8, ldm, ldSource, ldPrimary, ldSecondary, e0, e1, e2, e6, e7, hss, ne_eq,
      not_true_eq_false, if_false, emit, pushExtValueFromMem, pushExtValueFromMem2,
      getFreeXReg, List.append_assoc, List.singleton_append, List.cons_append, List.nil_append]
  · simp only [ldm, ldSource, ldPrimary, ldSecondary, e0, e1, e2, e4, e5, hss, ne_eq,
      not_false_eq_true, if_true, emit, pushExtValueFromMem, pushExtValueFromMem2,
      getFreeXReg, List.append_assoc, List.singleton_append, List.cons_append, List.nil_append]

theorem ldnm_emit (opc : Nat) (e : DSPEmitter) :
    ldnm opc e = ⟨(ldPrimary opc : Int), (ldSecondary opc : Int), e.code ++
      [.dsp_op_read_reg (ldSource opc) .TMP .ZERO, .dmem_read .TMP, .MOVZX_32_16 .RBX .RAX,
       .dsp_op_read_reg (ldSource opc) .RCX .NONE, .dsp_op_read_reg DSP_REG_AR3 .TMP .NONE,
       .XOR16 .RCX .TMP, .TEST16 .RCX 0xfc00, .J_CC .CC_NE .not_equal,
       .dsp_op_read_reg (ldSource opc) .TMP .ZERO, .dmem_read .TMP, .SHL32 .RAX 16,
       .OR32 .RBX .RAX, .flushRegs, .J .after, .SetJumpTarget .not_equal,
       .dsp_op_read_reg DSP_REG_AR3 .TMP .ZERO, .dmem_read .TMP, .SHL32 .RAX 16,
       .OR32 .RBX .RAX, .flushRegs, .SetJumpTarget .after,
       .increase_addr_reg (ldSource opc) (ldSource opc), .increase_addr_reg DSP_REG_AR3 DSP_REG_AR3],
      e.staged ++ [.storeIndex (ldPrimary opc : Int), .storeIndex2 (ldSecondary opc : Int),
        .storeIndex2 (ldSecondary opc : Int)]⟩ := by
  have h0 := and3_le opc
  have h1 := and1_le (opc >>> 4)
  have h2 := and1_le (opc >>> 5)
  have e0 : (opc &&& 3) % 256 = opc &&& 3 := Nat.mod_eq_of_lt (by omega)
  have e1 : ((opc >>> 4) &&& 1) % 256 = (opc >>> 4) &&& 1 := Nat.mod_eq_of_lt (by omega)
  have e2 : ((opc >>> 5) &&& 1) % 256 = (opc >>> 5) &&& 1 := Nat.mod_eq_of_lt (by omega)
  have e4 : ∀ x : Nat, (x <<< 1) + DSP_REG_AXL0 = DSP_REG_AXL0 + 2 * x := by
    intro x
    rw [Nat.shiftLeft_eq]
    omega
  have e5 : ∀ x : Nat, (x <<< 1) + DSP_REG_AXL1 = DSP_REG_AXL1 + 2 * x := by
    intro x
    rw [Nat.shiftLeft_eq]
    omega
  have e6 : ∀ x : Nat, x + DSP_REG_AXH0 = DSP_REG_AXH0 + x := fun x => Nat.add_comm _ _
  have e7 : ∀ x : Nat, x + DSP_REG_AXL0 = DSP_REG_AXL0 + x := fun x => Nat.add_comm _ _
  have e8 : DSP_REG_AR3 % 256 = DSP_REG_AR3 := rfl
  by_cases hss : opc &&& 3 = DSP_REG_AR3
  · simp only [e8, ldnm, ldSource, ldPrimary, ldSecondary, e0, e1, e2, e6, e7, hss, ne_eq,
      not_true_eq_false, if_false, emit, pushExtValueFromMem, pushExtValueFromMem2,
      getFreeXReg, List.append_assoc, List.singleton_append, List.cons_append, List.nil_append]
  · simp only [ldnm, ldSource, ldPrimary, ldSecondary, e0, e1, e2, e4, e5, hss, ne_eq,
      not_false_eq_true, if_true, emit, pushExtValueFromMem, pushExtValueFromMem2,
      getFreeXReg, List.append_assoc, List.singleton_append, List.cons_append, List.nil_append]

/-! ### Registers written by emitted code -/

@[simp]
theorem setHost_r (st : DSPState) (h : X64Reg) (v : Nat) : (st.setHost h v).r = st.r := by
  cases h <;> rfl

@[simp]
theorem setHost_dmem (st : DSPState) (h : X64Reg) (v : Nat) : (st.setHost h v).dmem = st.dmem := by
  cases h <;> rfl

theorem step_frame (X : Collab) (i : Instr) (st : DSPState) (k : Nat)
    (h : regWritten i ≠ some k) : (step X i st).r k = st.r k := by
  cases i <;> simp [step, regWritten, DSPState.setReg] at h ⊢ <;>
    exact Function.update_noteq (Ne.symm h) _ _

theorem run_frame (X : Collab) (k : Nat) (code : List Instr) :
    ∀ (skip : Option FixupBranch) (st : DSPState),
      (∀ i ∈ code, regWritten i ≠ some k) → (run X skip code st).r k = st.r k := by
  induction code with
  | nil =>
    intro skip st _
    cases skip <;> rfl
  | cons i rest ih =>
    intro skip st h
    have hi := h i (List.mem_cons_self _ _)
    have hrest : ∀ j ∈ rest, regWritten j ≠ some k :=
      fun j hj => h j (List.mem_cons_of_mem _ hj)
    cases skip with
    | some b =>
      cases i <;> simp only [run] <;> try exact ih _ _ hrest
      split_ifs <;> exact ih _ _ hrest
    | none =>
      cases i <;> simp only [run] <;>
        first
          | (rw [ih _ _ hrest]; exact step_frame X _ st k hi)
          | exact ih _ _ hrest
          | (split_ifs <;> rw [ih _ _ hrest])

theorem staging_code_ar_only : ∀ h ∈ stagingHandlers, ∀ (opc : Nat) (k : Nat), 4 ≤ k →
    ∀ i ∈ (h opc fresh).code, regWritten i ≠ some k := by
  intro h hh opc k hk
  have h3 := and3_le opc
  have hs := ldSource_lt opc
  simp only [stagingHandlers, List.mem_cons, List.mem_singleton, List.not_mem_nil,
    or_false] at hh
  rcases hh with rfl | rfl | rfl | rfl | rfl | rfl | rfl | rfl | rfl | rfl | rfl | rfl | rfl | rfl | rfl <;>
  simp only [mv_emit, l_emit, ln_emit, ls_emit, lsn_emit, lsm_emit, lsnm_emit, sl_emit, sln_emit,
    slm_emit, slnm_emit, ld_emit, ldn_emit, ldm_emit, ldnm_emit, fresh, List.nil_append] <;>
  (try split_ifs) <;>
  simp only [List.forall_mem_cons, List.cons_append, List.nil_append, List.append_nil, regWritten, DSP_REG_AR0, DSP_REG_AR3, ne_eq, Option.some.injEq, not_false_eq_true, true_and, and_true, List.not_mem_nil, IsEmpty.forall_iff, implies_true, reduceCtorEq] <;>
  omega

theorem staging_tags : ∀ h ∈ stagingHandlers, ∀ (opc : Nat),
    (24 ≤ (h opc fresh).storeIndex ∧ (h opc fresh).storeIndex ≤ 31) ∧
    ((h opc fresh).storeIndex2 = -1 ∨
      (24 ≤ (h opc fresh).storeIndex2 ∧ (h opc fresh).storeIndex2 ≤ 27 ∧
        (h opc fresh).storeIndex2 ≠ (h opc fresh).storeIndex)) := by
  intro h hh opc
  have h3 := and3_le (opc >>> 2)
  have h4 := and3_le (opc >>> 4)
  have h7 := and7_le (opc >>> 3)
  have hp := ldPrimary_range opc
  have hq := ldSecondary_range opc
  have hpq : ldPrimary opc ≠ ldSecondary opc := by
    have h1 := and1_le (opc >>> 5)
    have h2 := and1_le (opc >>> 4)
    unfold ldPrimary ldSecondary DSP_REG_AXL0 DSP_REG_AXH0 DSP_REG_AXL1
    split_ifs <;> omega
  simp only [stagingHandlers, List.mem_cons, List.mem_singleton, List.not_mem_nil,
    or_false] at hh
  rcases hh with rfl | rfl | rfl | rfl | rfl | rfl | rfl | rfl | rfl | rfl | rfl | rfl | rfl | rfl | rfl <;>
  simp only [mv_emit, l_emit, ln_emit, ls_emit, lsn_emit, lsm_emit, lsnm_emit, sl_emit, sln_emit,
    slm_emit, slnm_emit, ld_emit, ldn_emit, ldm_emit, ldnm_emit, fresh, DSP_REG_AXL0] <;>
  refine ⟨by omega, ?_⟩ <;>
  first
    | exact Or.inl trivial
    | exact Or.inr (by omega)

/-! ### Shape of the code emitted by `popExtValueToReg` -/

theorem pop_tags (e : DSPEmitter) :
    (popExtValueToReg e).storeIndex = -1 ∧ (popExtValueToReg e).storeIndex2 = -1 := by
  unfold popExtValueToReg
  constructor
  · simp only []
    split_ifs <;> rfl
  · rfl

theorem pop_none (si2 : Int) (c : List Instr) (g : List TagWrite) :
    popExtValueToReg ⟨-1, si2, c, g⟩ =
      ⟨-1, -1, if si2 = -1 then c
        else c ++ [.SHR32 .RBX 16, .dsp_op_write_reg si2.toNat .RBX], []⟩ := by
  unfold popExtValueToReg
  by_cases h : si2 = -1 <;> simp [h, emit]

theorem pop_low (si : Int) (c : List Instr) (g : List TagWrite) (h : si ≠ -1) (h2 : si < 30) :
    popExtValueToReg ⟨si, -1, c, g⟩ =
      ⟨-1, -1, c ++ [.dsp_op_write_reg si.toNat .RBX], []⟩ := by
  unfold popExtValueToReg
  have h4 : ¬ (30 : Int) ≤ si := by omega
  simp [h, h4, emit, DSP_REG_ACM0]

theorem pop_both (si si2 : Int) (c : List Instr) (g : List TagWrite) (h : si ≠ -1)
    (h2 : si2 ≠ -1) :
    popExtValueToReg ⟨si, si2, c, g⟩ =
      ⟨-1, -1, c ++ [.dsp_op_write_reg si.toNat .RBX, .SHR32 .RBX 16,
        .dsp_op_write_reg si2.toNat .RBX], []⟩ := by
  unfold popExtValueToReg
  simp [h, h2, emit, DSP_REG_ACM0]

theorem pop_acm (si : Int) (c : List Instr) (g : List TagWrite) (h : (30 : Int) ≤ si) :
    popExtValueToReg ⟨si, -1, c, g⟩ =
      ⟨-1, -1, c ++ [.dsp_op_write_reg si.toNat .RBX,
        .TEST32 .RBX 0x40000000, .J_CC .CC_Z .not_40bit, .MOVSX_32_16 .RAX .RBX,
        .SHR32 .RAX 16, .set_acc_h (si - 30).toNat .RAX,
        .set_acc_l_imm (si - 30).toNat 0, .flushRegs, .SetJumpTarget .not_40bit], []⟩ := by
  unfold popExtValueToReg
  have h1 : si ≠ -1 := by omega
  simp [h, h1, emit, DSP_REG_ACM0, SR_40_MODE_BIT]

theorem pop_both_nat (p q : Nat) (c : List Instr) (g : List TagWrite) :
    popExtValueToReg ⟨(p : Int), (q : Int), c, g⟩ =
      ⟨-1, -1, c ++ [.dsp_op_write_reg p .RBX, .SHR32 .RBX 16, .dsp_op_write_reg q .RBX],
        []⟩ := by
  rw [pop_both _ _ _ _ (by omega) (by omega)]
  simp

/-! ### Running the flush code -/

theorem pop_run_primary (X : Collab) (si si2 : Int) (st : DSPState)
    (h1 : 0 ≤ si) (h2 : -1 ≤ si2) (hne : si ≠ si2) :
    (run X none (popExtValueToReg ⟨si, si2, [], []⟩).code st).r si.toNat = st.rbx % 65536 := by
  have ha : si ≠ -1 := by omega
  by_cases h2 : si2 = -1
  · subst h2
    by_cases h30 : (30 : Int) ≤ si
    · rw [pop_acm si [] [] h30]
      have e1 : DSP_REG_ACH0 + (si - 30).toNat ≠ si.toNat := by
        unfold DSP_REG_ACH0
        omega
      have e2 : DSP_REG_ACL0 + (si - 30).toNat ≠ si.toNat := by
        unfold DSP_REG_ACL0
        omega
      by_cases hz : (st.rbx % 4294967296) &&& 1073741824 = 0 <;>
      simp [run, step, condHolds, DSPState.setReg, DSPState.setHost, DSPState.host, hz,
        Function.update_apply, e1.symm, e2.symm]
    · rw [pop_low si [] [] ha (by omega)]
      simp [run, step, DSPState.setReg, DSPState.host]
  · rw [pop_both si si2 [] [] ha h2]
    have e1 : si.toNat ≠ si2.toNat := by omega
    simp [run, step, DSPState.setReg, DSPState.setHost, DSPState.host,
      Function.update_apply, e1]

theorem pop_run_secondary (X : Collab) (si si2 : Int) (st : DSPState) (hb : si2 ≠ -1) :
    (run X none (popExtValueToReg ⟨si, si2, [], []⟩).code st).r si2.toNat
      = st.rbx / 65536 % 65536 := by
  by_cases ha : si = -1
  · subst ha
    rw [pop_none]
    simp [hb, run, step, DSPState.setReg, DSPState.setHost, DSPState.host, bits16_31]
  · rw [pop_both si si2 [] [] ha hb]
    simp [run, step, DSPState.setReg, DSPState.setHost, DSPState.host, bits16_31]

/-! ### Flush -/

/-- C2 (flush commit).  For every holding value `st.rbx` and every pair of tags:
the code emitted by `popExtValueToReg` leaves the low 16 bits of the holding value
in register `storeIndex` when that tag is a register index (and differs from the
secondary tag, itself `-1` or a register index), leaves bits 16..31 of the holding
value in register `storeIndex2` when that tag is not `-1`, emits the primary write
before the secondary write when both are set, and leaves both tags `-1` whatever
they were before. -/
theorem popExtValueToReg_commit (X : Collab) (si si2 : Int) (st : DSPState) :
    (0 ≤ si → -1 ≤ si2 → si ≠ si2 →
      (run X none (popExtValueToReg ⟨si, si2, [], []⟩).code st).r si.toNat = st.rbx % 65536) ∧
    (si2 ≠ -1 →
      (run X none (popExtValueToReg ⟨si, si2, [], []⟩).code st).r si2.toNat
        = st.rbx / 65536 % 65536) ∧
    (si ≠ -1 → si2 ≠ -1 → (popExtValueToReg ⟨si, si2, [], []⟩).code =
      [.dsp_op_write_reg si.toNat .RBX, .SHR32 .RBX 16, .dsp_op_write_reg si2.toNat .RBX]) ∧
    (popExtValueToReg ⟨si, si2, [], []⟩).storeIndex = -1 ∧
    (popExtValueToReg ⟨si, si2, [], []⟩).storeIndex2 = -1 := by
  refine ⟨fun ha h2 hb => pop_run_primary X si si2 st ha h2 hb,
    fun hb => pop_run_secondary X si si2 st hb, ?_, (pop_tags _).1, (pop_tags _).2⟩
  intro ha hb
  rw [pop_both si si2 [] [] ha hb]
  rfl

/-- Witness of `popExtValueToReg_commit`: primary AX0.L, secondary AX1.L, holding
value 0xBEEF1234. -/
theorem popExtValueToReg_commit_witness :
    (run flatCollab none (popExtValueToReg ⟨24, 25, [], []⟩).code
        (stateOf (fun _ => 0) (fun _ => 0) 0xBEEF1234)).r 24 = 0x1234 ∧
    (run flatCollab none (popExtValueToReg ⟨24, 25, [], []⟩).code
        (stateOf (fun _ => 0) (fun _ => 0) 0xBEEF1234)).r 25 = 0xBEEF :=
  ⟨(popExtValueToReg_commit flatCollab 24 25 (stateOf (fun _ => 0) (fun _ => 0) 0xBEEF1234)).1
      (by decide) (by decide) (by decide),
   (popExtValueToReg_commit flatCollab 24 25 (stateOf (fun _ => 0) (fun _ => 0) 0xBEEF1234)).2.1
      (by decide)⟩

/-- C3 (40-bit sign extension on flush).  When `popExtValueToReg` runs with
`storeIndex` an accumulator mid word ACM0 + `acc`, `storeIndex2 = -1` and the
status-register copy in bits 16..31 of the holding value: the mid word receives the
staged low 16 bits; if the copy has the 40-bit-mode bit set, the high word of that
accumulator becomes 0xFFFF when bit 15 of the staged value is 1 and 0 when it is 0,
and its low word becomes 0; if the mode bit is clear, high and low word are
unchanged. -/
theorem popExtValueToReg_sign_extension (X : Collab) (acc : Nat) (hacc : acc ≤ 1)
    (st : DSPState) :
    (run X none (popExtValueToReg ⟨((DSP_REG_ACM0 + acc : Nat) : Int), -1, [], []⟩).code st).r
        (DSP_REG_ACM0 + acc) = st.rbx % 65536 ∧
    ((st.rbx / 65536 % 65536) &&& SR_40_MODE_BIT ≠ 0 →
      (run X none (popExtValueToReg ⟨((DSP_REG_ACM0 + acc : Nat) : Int), -1, [], []⟩).code st).r
          (DSP_REG_ACH0 + acc) = (if 32768 ≤ st.rbx % 65536 then 0xFFFF else 0x0000) ∧
      (run X none (popExtValueToReg ⟨((DSP_REG_ACM0 + acc : Nat) : Int), -1, [], []⟩).code st).r
          (DSP_REG_ACL0 + acc) = 0x0000) ∧
    ((st.rbx / 65536 % 65536) &&& SR_40_MODE_BIT = 0 →
      (run X none (popExtValueToReg ⟨((DSP_REG_ACM0 + acc : Nat) : Int), -1, [], []⟩).code st).r
          (DSP_REG_ACH0 + acc) = st.r (DSP_REG_ACH0 + acc) ∧
      (run X none (popExtValueToReg ⟨((DSP_REG_ACM0 + acc : Nat) : Int), -1, [], []⟩).code st).r
          (DSP_REG_ACL0 + acc) = st.r (DSP_REG_ACL0 + acc)) := by
  have h30 : (30 : Int) ≤ ((DSP_REG_ACM0 + acc : Nat) : Int) := by
    unfold DSP_REG_ACM0
    omega
  have hsub : (((DSP_REG_ACM0 + acc : Nat) : Int) - 30).toNat = acc := by
    unfold DSP_REG_ACM0
    omega
  have htn : (((DSP_REG_ACM0 + acc : Nat) : Int)).toNat = DSP_REG_ACM0 + acc := by
    omega
  rw [pop_acm _ [] [] h30, hsub, htn]
  have hsx : ∀ v : Nat, v < 65536 → ¬ v < 32768 →
      (v + 4294901760) % 4294967296 / 65536 % 65536 = 65535 := by
    intro v h1 h2
    omega
  have hzx : ∀ v : Nat, v < 32768 → v % 4294967296 / 65536 % 65536 = 0 := by
    intro v h1
    omega
  have hv : st.rbx % 65536 < 65536 := Nat.mod_lt _ (by norm_num)
  by_cases hz : (st.rbx % 4294967296) &&& 1073741824 = 0
  · have hm := (mode_bit_test st.rbx).1 hz
    refine ⟨?_, fun hne => absurd hm hne, fun _ => ?_⟩ <;>
    interval_cases acc <;>
    simp [run, step, condHolds, DSPState.setReg, DSPState.setHost, DSPState.host, hz,
      Function.update_apply, DSP_REG_ACM0, DSP_REG_ACH0, DSP_REG_ACL0]
  · have hm : ¬ (st.rbx / 65536 % 65536) &&& SR_40_MODE_BIT = 0 :=
      fun h => hz ((mode_bit_test st.rbx).2 h)
    refine ⟨?_, fun _ => ?_, fun h0 => absurd h0 hm⟩ <;>
    interval_cases acc <;>
    rcases Nat.lt_or_ge (st.rbx % 65536) 32768 with hs | hs <;>
    first
      | simp [run, step, condHolds, DSPState.setReg, DSPState.setHost, DSPState.host, hz, hs,
          Function.update_apply, DSP_REG_ACM0, DSP_REG_ACH0, DSP_REG_ACL0, hzx _ hs,
          not_le.mpr hs]
      | simp [run, step, condHolds, DSPState.setReg, DSPState.setHost, DSPState.host, hz, hs,
          Function.update_apply, DSP_REG_ACM0, DSP_REG_ACH0, DSP_REG_ACL0,
          hsx _ hv (not_lt.mpr hs), not_lt.mpr hs]

/-- Witness of `popExtValueToReg_sign_extension`: ACM1 staged alone with holding
value 0x40008001 (mode bit set, negative value). -/
theorem popExtValueToReg_sign_extension_witness :
    (run flatCollab none (popExtValueToReg ⟨((DSP_REG_ACM0 + 1 : Nat) : Int), -1, [], []⟩).code
        (stateOf (fun _ => 7) (fun _ => 0) 0x40008001)).r (DSP_REG_ACH0 + 1) = 0xFFFF ∧
    (run flatCollab none (popExtValueToReg ⟨((DSP_REG_ACM0 + 1 : Nat) : Int), -1, [], []⟩).code
        (stateOf (fun _ => 7) (fun _ => 0) 0x40008001)).r (DSP_REG_ACL0 + 1) = 0 :=
  (popExtValueToReg_sign_extension flatCollab 1 (by decide)
    (stateOf (fun _ => 7) (fun _ => 0) 0x40008001)).2.1 (by decide)

/-- C4 (flush idempotence).  With both tags `-1`, `popExtValueToReg` emits nothing
and leaves both tags `-1`; hence a second flush directly after a first one leaves
the emitter (tags and emitted code) as the first flush left it, and running the
code of two flushes gives the same run-time state as running the code of one. -/
theorem popExtValueToReg_idempotent (X : Collab) (e : DSPEmitter) (c : List Instr)
    (st : DSPState) :
    popExtValueToReg ⟨-1, -1, c, []⟩ = ⟨-1, -1, c, []⟩ ∧
    popExtValueToReg (popExtValueToReg e) = popExtValueToReg e ∧
    run X none (popExtValueToReg (popExtValueToReg e)).code st
      = run X none (popExtValueToReg e).code st := by
  have h0 : ∀ (c2 : List Instr) (g : List TagWrite),
      popExtValueToReg ⟨-1, -1, c2, g⟩ = ⟨-1, -1, c2, []⟩ := by
    intro c2 g
    rw [pop_none]
    simp
  have h1 : popExtValueToReg (popExtValueToReg e) = popExtValueToReg e := by
    obtain ⟨ha, hb⟩ := pop_tags e
    have hc : (popExtValueToReg e).staged = [] := rfl
    generalize popExtValueToReg e = e2 at ha hb hc
    obtain ⟨a, b, c2, g⟩ := e2
    simp only at ha hb hc
    subst ha
    subst hb
    subst hc
    exact h0 c2 []
  exact ⟨h0 c [], h1, by rw [h1]⟩

/-! ### Saturation of the source read -/

/-- C8 (saturation gating for mv, s and sn).  For every opcode, each of the three
handlers emits exactly one read of its source register ACL0 + s, and that read is
the saturating read `dsp_op_read_reg_and_saturate` if and only if the source is an
accumulator mid word (s in {2, 3}); for s in {0, 1} it is the plain
`dsp_op_read_reg`. -/
theorem saturation_gating_mv_s_sn (opc : Nat) (e : DSPEmitter) :
    (mv opc e).code = e.code ++
      [if isAccMid (DSP_REG_ACL0 + (opc &&& 3))
        then .dsp_op_read_reg_and_saturate (DSP_REG_ACL0 + (opc &&& 3)) .RBX .ZERO
        else .dsp_op_read_reg (DSP_REG_ACL0 + (opc &&& 3)) .RBX .ZERO] ∧
    (s opc e).code = e.code ++
      [.dsp_op_read_reg (opc &&& 3) .RAX .ZERO,
       if isAccMid (DSP_REG_ACL0 + ((opc >>> 3) &&& 3))
        then .dsp_op_read_reg_and_saturate (DSP_REG_ACL0 + ((opc >>> 3) &&& 3)) .TMP .ZERO
        else .dsp_op_read_reg (DSP_REG_ACL0 + ((opc >>> 3) &&& 3)) .TMP .ZERO,
       .dmem_write .TMP, .increment_addr_reg (opc &&& 3)] ∧
    (sn opc e).code = e.code ++
      [.dsp_op_read_reg (opc &&& 3) .RAX .ZERO,
       if isAccMid (DSP_REG_ACL0 + ((opc >>> 3) &&& 3))
        then .dsp_op_read_reg_and_saturate (DSP_REG_ACL0 + ((opc >>> 3) &&& 3)) .TMP .ZERO
        else .dsp_op_read_reg (DSP_REG_ACL0 + ((opc >>> 3) &&& 3)) .TMP .ZERO,
       .dmem_write .TMP, .increase_addr_reg (opc &&& 3) (opc &&& 3)] ∧
    (isAccMid (DSP_REG_ACL0 + (opc &&& 3)) ↔ 2 ≤ opc &&& 3) ∧
    (isAccMid (DSP_REG_ACL0 + ((opc >>> 3) &&& 3)) ↔ 2 ≤ (opc >>> 3) &&& 3) := by
  have h := and3_le opc
  have h2 := and3_le (opc >>> 3)
  refine ⟨by rw [mv_emit], by rw [s_emit], by rw [sn_emit], ?_, ?_⟩
  · unfold isAccMid DSP_REG_ACL0 DSP_REG_ACM0 DSP_REG_ACM1
    omega
  · unfold isAccMid DSP_REG_ACL0 DSP_REG_ACM0 DSP_REG_ACM1
    omega

/-- C9 (the claim fails on the code).  None of the eight dual load-store handlers
ever emits the saturating read: for every opcode the store source ACM0 + s is read
with the plain `dsp_op_read_reg`.  At opcode 0x80 (`ls`, s = 0, d = 0) with
accumulator 0 overflowed in 40-bit mode, the word stored at the address in AR3 is
the raw mid word 0x1234 although the saturating read of ACM0 gives 0x7FFF. -/
theorem dual_load_store_store_unsaturated :
    (∀ h ∈ dualLoadStoreHandlers, ∀ (opc : Nat) (si si2 : Int),
      Instr.dsp_op_read_reg (DSP_REG_ACM0 + (opc &&& 1)) .TMP .ZERO ∈ (h opc ⟨si, si2, [], []⟩).code ∧
      ∀ i ∈ (h opc ⟨si, si2, [], []⟩).code, ∀ reg host ext,
        i ≠ .dsp_op_read_reg_and_saturate reg host ext) ∧
    clampCollab.saturate overflowRegs DSP_REG_ACM0 = 0x7FFF ∧
    (run clampCollab none (ls 0x80 fresh).code
      (stateOf overflowRegs (fun _ => 0) 0)).dmem 0x0200 = 0x1234 ∧
    (run clampCollab none (ls 0x80 fresh).code
      (stateOf overflowRegs (fun _ => 0) 0)).memlog =
        [MemEvent.write 0x0200 0x1234, MemEvent.read 0x0100] := by
  refine ⟨?_, by decide, by decide, by decide⟩
  intro h hh opc si si2
  simp only [dualLoadStoreHandlers, List.mem_cons, List.mem_singleton, List.not_mem_nil,
    or_false] at hh
  rcases hh with rfl | rfl | rfl | rfl | rfl | rfl | rfl | rfl
  · rw [ls_emit]
    simp
  · rw [lsn_emit]
    simp
  · rw [lsm_emit]
    simp
  · rw [lsnm_emit]
    simp
  · rw [sl_emit]
    simp
  · rw [sln_emit]
    simp
  · rw [slm_emit]
    simp
  · rw [slnm_emit]
    simp

/-! ### Deferred visibility -/

/-- C1 (deferred visibility).  For every handler that stages a register write, every
opcode and every run-time state: the emitted code changes no DSP register other
than the addressing registers AR0..AR3; the staged destinations are registers
24..31 (primary) and 24..27 (secondary, when staged, and then different from the
primary), so the destination registers still hold their pre-instruction values
after the handler code has run; the primary destination receives the low 16 bits
of the holding value only when the code of `popExtValueToReg` runs afterwards. -/
theorem staged_write_deferred (X : Collab) :
    ∀ h ∈ stagingHandlers, ∀ (opc : Nat) (st : DSPState),
      (∀ k, 4 ≤ k → (run X none (h opc fresh).code st).r k = st.r k) ∧
      (24 ≤ (h opc fresh).storeIndex ∧ (h opc fresh).storeIndex ≤ 31) ∧
      ((h opc fresh).storeIndex2 = -1 ∨
        (24 ≤ (h opc fresh).storeIndex2 ∧ (h opc fresh).storeIndex2 ≤ 27 ∧
          (h opc fresh).storeIndex2 ≠ (h opc fresh).storeIndex)) ∧
      (run X none (h opc fresh).code st).r (h opc fresh).storeIndex.toNat
        = st.r (h opc fresh).storeIndex.toNat ∧
      ((h opc fresh).storeIndex2 ≠ -1 →
        (run X none (h opc fresh).code st).r (h opc fresh).storeIndex2.toNat
          = st.r (h opc fresh).storeIndex2.toNat) ∧
      (run X none (popExtValueToReg ⟨(h opc fresh).storeIndex, (h opc fresh).storeIndex2, [], []⟩).code
          (run X none (h opc fresh).code st)).r (h opc fresh).storeIndex.toNat
        = (run X none (h opc fresh).code st).rbx % 65536 ∧
      ((h opc fresh).storeIndex2 ≠ -1 →
        (run X none (popExtValueToReg ⟨(h opc fresh).storeIndex, (h opc fresh).storeIndex2, [], []⟩).code
            (run X none (h opc fresh).code st)).r (h opc fresh).storeIndex2.toNat
          = (run X none (h opc fresh).code st).rbx / 65536 % 65536) := by
  intro h hh opc st
  have hframe : ∀ k, 4 ≤ k → (run X none (h opc fresh).code st).r k = st.r k :=
    fun k hk => run_frame X k _ none st (staging_code_ar_only h hh opc k hk)
  obtain ⟨⟨t1, t2⟩, t3⟩ := staging_tags h hh opc
  refine ⟨hframe, ⟨t1, t2⟩, t3, hframe _ (by omega), fun hne => hframe _ (by omega), ?_,
    fun hne => pop_run_secondary X _ _ _ hne⟩
  apply pop_run_primary
  · omega
  · omega
  · omega

/-- Witness of `staged_write_deferred`: `l` with opcode 0x70 (destination ACM0,
source AR0) leaves ACM0 = 0x0BAD in place after staging. -/
theorem staged_write_deferred_witness :
    l ∈ stagingHandlers ∧
    (run flatCollab none (l 0x70 fresh).code
        (stateOf (fun k => if k = 30 then 0x0BAD else 0) tagMem 0)).r
          (l 0x70 fresh).storeIndex.toNat
      = (stateOf (fun k => if k = 30 then 0x0BAD else 0) tagMem 0).r
          (l 0x70 fresh).storeIndex.toNat :=
  ⟨by simp [stagingHandlers],
   (staged_write_deferred flatCollab l (by simp [stagingHandlers]) 0x70
      (stateOf (fun k => if k = 30 then 0x0BAD else 0) tagMem 0)).2.2.2.1⟩

/-! ### Pointer advance of the dual load-store handlers -/

/-- C10 (pointer-advance pairing).  After the code of each of the eight dual
load-store handlers has run, the register file is the old one with AR3 and AR0
each replaced once: ls, sl increment both; lsn, sln add IX0 to AR0 and increment
AR3; lsm, slm increment AR0 and add IX3 to AR3; lsnm, slnm add IX0 to AR0 and IX3
to AR3.  Each new pointer is computed from the old values of its own pointer, its
own wrapping register and (for index-add) its own index register; every other
register, AR1 and AR2 included, is unchanged. -/
theorem dual_load_store_pointer_advance (X : Collab) (opc : Nat) (st : DSPState) :
    (run X none (ls opc fresh).code st).r =
      Function.update (Function.update st.r DSP_REG_AR3 (incremented X st DSP_REG_AR3))
        DSP_REG_AR0 (incremented X st DSP_REG_AR0) ∧
    (run X none (lsn opc fresh).code st).r =
      Function.update (Function.update st.r DSP_REG_AR3 (incremented X st DSP_REG_AR3))
        DSP_REG_AR0 (indexAdded X st DSP_REG_AR0) ∧
    (run X none (lsm opc fresh).code st).r =
      Function.update (Function.update st.r DSP_REG_AR3 (indexAdded X st DSP_REG_AR3))
        DSP_REG_AR0 (incremented X st DSP_REG_AR0) ∧
    (run X none (lsnm opc fresh).code st).r =
      Function.update (Function.update st.r DSP_REG_AR3 (indexAdded X st DSP_REG_AR3))
        DSP_REG_AR0 (indexAdded X st DSP_REG_AR0) ∧
    (run X none (sl opc fresh).code st).r =
      Function.update (Function.update st.r DSP_REG_AR3 (incremented X st DSP_REG_AR3))
        DSP_REG_AR0 (incremented X st DSP_REG_AR0) ∧
    (run X none (sln opc fresh).code st).r =
      Function.update (Function.update st.r DSP_REG_AR3 (incremented X st DSP_REG_AR3))
        DSP_REG_AR0 (indexAdded X st DSP_REG_AR0) ∧
    (run X none (slm opc fresh).code st).r =
      Function.update (Function.update st.r DSP_REG_AR3 (indexAdded X st DSP_REG_AR3))
        DSP_REG_AR0 (incremented X st DSP_REG_AR0) ∧
    (run X none (slnm opc fresh).code st).r =
      Function.update (Function.update st.r DSP_REG_AR3 (indexAdded X st DSP_REG_AR3))
        DSP_REG_AR0 (indexAdded X st DSP_REG_AR0) := by
  refine ⟨?_, ?_, ?_, ?_, ?_, ?_, ?_, ?_⟩ <;>
  simp only [ls_emit, lsn_emit, lsm_emit, lsnm_emit, sl_emit, sln_emit, slm_emit, slnm_emit,
    fresh, List.nil_append] <;>
  simp [run, step, DSPState.setReg, DSPState.setHost, DSPState.host, incremented, indexAdded,
    DSP_REG_AR0, DSP_REG_AR3, DSP_REG_WR0, DSP_REG_IX0]

/-! ### The dual-load family -/

/-- C5 (page-equality correctness).  For each of the four dual-load handlers, every
opcode and every state, with `a` the 16-bit value of the non-AR3 source register
and `b` the 16-bit value of AR3: the emitted code executes exactly one conditional
jump, to `not_equal`, and that jump is taken exactly when `a &&& 0xFC00` differs
from `b &&& 0xFC00`; the fall-through (equal) arm runs exactly when the two values
agree outside their low 10 bits. -/
theorem ld_page_test (X : Collab) :
    ∀ h ∈ ldHandlers, ∀ (opc : Nat) (st : DSPState),
      (run X none (h opc fresh).code st).brlog = st.brlog ++
        [(FixupBranch.not_equal,
          decide ((st.r (ldSource opc) % 65536) &&& 0xFC00
            ≠ (st.r DSP_REG_AR3 % 65536) &&& 0xFC00))] := by
  intro h hh opc st
  simp only [ldHandlers, List.mem_cons, List.mem_singleton, List.not_mem_nil, or_false] at hh
  rcases hh with rfl | rfl | rfl | rfl <;>
  simp only [ld_emit, ldn_emit, ldm_emit, ldnm_emit, fresh, List.nil_append] <;>
  generalize ldSource opc = src at * <;>
  by_cases hp : (st.r src % 65536) &&& 64512 = (st.r DSP_REG_AR3 % 65536) &&& 64512 <;>
  simp [run, step, condHolds, DSPState.setReg, DSPState.setHost, DSPState.host,
    extendInto_mod, xor16_mod, page_test_iff, hp]

/-- Witness of `ld_page_test`: `ld` with AR0 = 0x03FF and AR3 = 0x0400 (different
pages) takes the jump to `not_equal`. -/
theorem ld_page_test_witness :
    ld ∈ ldHandlers ∧
    (run flatCollab none (ld 0xC0 fresh).code (stateOf (regsAt 0x03FF 0x0400) tagMem 0)).brlog
      = (stateOf (regsAt 0x03FF 0x0400) tagMem 0).brlog ++
        [(FixupBranch.not_equal,
          decide (((stateOf (regsAt 0x03FF 0x0400) tagMem 0).r (ldSource 0xC0) % 65536) &&& 0xFC00
            ≠ ((stateOf (regsAt 0x03FF 0x0400) tagMem 0).r DSP_REG_AR3 % 65536) &&& 0xFC00))] :=
  ⟨by simp [ldHandlers],
   ld_page_test flatCollab ld (by simp [ldHandlers]) 0xC0 (stateOf (regsAt 0x03FF 0x0400) tagMem 0)⟩

/-- C6 (same-page fan-out).  For each dual-load handler and every opcode whose
selector ss is not 3: when the old values of AR[ss] and AR3 lie in the same page,
after staging and flush both destination registers hold the word read from the
address in AR[ss], and the only data-memory accesses are two reads of that
address. -/
theorem ld_same_page_fan_out (X : Collab) :
    ∀ h ∈ ldHandlers, ∀ (opc : Nat) (st : DSPState),
      opc &&& 3 ≠ 3 →
      (st.r (opc &&& 3) % 65536) &&& 0xFC00 = (st.r DSP_REG_AR3 % 65536) &&& 0xFC00 →
      (run X none (popExtValueToReg (h opc fresh)).code st).r
          (DSP_REG_AXL0 + 2 * ((opc >>> 5) &&& 1))
        = st.dmem (st.r (opc &&& 3) % 65536) % 65536 ∧
      (run X none (popExtValueToReg (h opc fresh)).code st).r
          (DSP_REG_AXL1 + 2 * ((opc >>> 4) &&& 1))
        = st.dmem (st.r (opc &&& 3) % 65536) % 65536 ∧
      (run X none (popExtValueToReg (h opc fresh)).code st).memlog
        = st.memlog ++ [MemEvent.read (st.r (opc &&& 3) % 65536),
            MemEvent.read (st.r (opc &&& 3) % 65536)] := by
  intro h hh opc st hss hp
  have h3 := and3_le opc
  have h1 := and1_le (opc >>> 5)
  have h2 := and1_le (opc >>> 4)
  have e1 : ldSource opc = opc &&& 3 := by simp [ldSource, DSP_REG_AR3, hss]
  have e2 : ldPrimary opc = DSP_REG_AXL0 + 2 * ((opc >>> 5) &&& 1) := by
    simp [ldPrimary, DSP_REG_AR3, hss]
  have e3 : ldSecondary opc = DSP_REG_AXL1 + 2 * ((opc >>> 4) &&& 1) := by
    simp [ldSecondary, DSP_REG_AR3, hss]
  simp only [ldHandlers, List.mem_cons, List.mem_singleton, List.not_mem_nil, or_false] at hh
  rcases hh with rfl | rfl | rfl | rfl <;>
  simp only [ld_emit, ldn_emit, ldm_emit, ldnm_emit, fresh, List.nil_append, e1, e2, e3,
    pop_both_nat] <;>
  generalize opc &&& 3 = src at * <;>
  generalize (opc >>> 5) &&& 1 = d at * <;>
  generalize (opc >>> 4) &&& 1 = r at * <;>
  simp (disch := omega) [run, step, condHolds, DSPState.setReg, DSPState.setHost,
    DSPState.host, extendInto_mod, xor16_mod, page_test_iff, hp, DSP_REG_AXL0, DSP_REG_AXL1,
    DSP_REG_AR3, Function.update_noteq, shl16, mod16_mod32, hold_lo, hold_hi]

/-- Witness of `ld_same_page_fan_out`: `ld` with ss = 0, AR0 = 0x0100 and
AR3 = 0x0103: both AX0.L and AX1.L receive the word at 0x0100. -/
theorem ld_same_page_fan_out_witness :
    (run flatCollab none (popExtValueToReg (ld 0xC0 fresh)).code
        (stateOf (regsAt 0x0100 0x0103) tagMem 0)).r (DSP_REG_AXL0 + 2 * ((0xC0 >>> 5) &&& 1))
      = tagMem 0x0100 % 65536 ∧
    (run flatCollab none (popExtValueToReg (ld 0xC0 fresh)).code
        (stateOf (regsAt 0x0100 0x0103) tagMem 0)).r (DSP_REG_AXL1 + 2 * ((0xC0 >>> 4) &&& 1))
      = tagMem 0x0100 % 65536 ∧
    (run flatCollab none (popExtValueToReg (ld 0xC0 fresh)).code
        (stateOf (regsAt 0x0100 0x0103) tagMem 0)).memlog
      = [MemEvent.read 0x0100, MemEvent.read 0x0100] :=
  ld_same_page_fan_out flatCollab ld (by simp [ldHandlers]) 0xC0
    (stateOf (regsAt 0x0100 0x0103) tagMem 0) (by decide) (by decide)

/-- C7 as stated fails.  `ld` with opcode 0xC0 (ss = 0), AR0 = 0x0100 and
AR3 = 0x0500 takes the not-equal path, and its second load reads address 0x0500,
the address in AR3, not the address 0x0100 in the non-AR3 source register; with
AR3 = 0x0103 it takes the equal path and its second load reads address 0x0100, the
address in AR0, not the address in AR3. -/
theorem ld_secondary_source_counterexample :
    (run flatCollab none (ld 0xC0 fresh).code (stateOf (regsAt 0x0100 0x0500) tagMem 0)).brlog
      = [(FixupBranch.not_equal, true)] ∧
    (run flatCollab none (ld 0xC0 fresh).code (stateOf (regsAt 0x0100 0x0500) tagMem 0)).memlog
      = [MemEvent.read 0x0100, MemEvent.read 0x0500] ∧
    (run flatCollab none (ld 0xC0 fresh).code
        (stateOf (regsAt 0x0100 0x0500) tagMem 0)).memlog.getLast?
      ≠ some (MemEvent.read 0x0100) ∧
    (run flatCollab none (ld 0xC0 fresh).code (stateOf (regsAt 0x0100 0x0103) tagMem 0)).brlog
      = [(FixupBranch.not_equal, false)] ∧
    (run flatCollab none (ld 0xC0 fresh).code (stateOf (regsAt 0x0100 0x0103) tagMem 0)).memlog
      = [MemEvent.read 0x0100, MemEvent.read 0x0100] ∧
    (run flatCollab none (ld 0xC0 fresh).code
        (stateOf (regsAt 0x0100 0x0103) tagMem 0)).memlog.getLast?
      ≠ some (MemEvent.read 0x0103) := by
  decide

/-- C7 amended.  For each dual-load handler, every opcode and every state, with `a`
the 16-bit value of the non-AR3 source register and `b` that of AR3: the code
performs exactly two data-memory reads, the first at `a`; on the not-equal path
(different pages, jump to `not_equal` taken) the second load reads address `b`
(AR3), and on the equal path (same page) the second load reads address `a` (the
non-AR3 source register). -/
theorem ld_secondary_source (X : Collab) :
    ∀ h ∈ ldHandlers, ∀ (opc : Nat) (st : DSPState),
      ((st.r (ldSource opc) % 65536) &&& 0xFC00 ≠ (st.r DSP_REG_AR3 % 65536) &&& 0xFC00 →
        (run X none (h opc fresh).code st).brlog
          = st.brlog ++ [(FixupBranch.not_equal, true)] ∧
        (run X none (h opc fresh).code st).memlog
          = st.memlog ++ [MemEvent.read (st.r (ldSource opc) % 65536),
              MemEvent.read (st.r DSP_REG_AR3 % 65536)]) ∧
      ((st.r (ldSource opc) % 65536) &&& 0xFC00 = (st.r DSP_REG_AR3 % 65536) &&& 0xFC00 →
        (run X none (h opc fresh).code st).brlog
          = st.brlog ++ [(FixupBranch.not_equal, false)] ∧
        (run X none (h opc fresh).code st).memlog
          = st.memlog ++ [MemEvent.read (st.r (ldSource opc) % 65536),
              MemEvent.read (st.r (ldSource opc) % 65536)]) := by
  intro h hh opc st
  simp only [ldHandlers, List.mem_cons, List.mem_singleton, List.not_mem_nil, or_false] at hh
  rcases hh with rfl | rfl | rfl | rfl <;>
  simp only [ld_emit, ldn_emit, ldm_emit, ldnm_emit, fresh, List.nil_append] <;>
  generalize ldSource opc = src at * <;>
  by_cases hp : (st.r src % 65536) &&& 64512 = (st.r DSP_REG_AR3 % 65536) &&& 64512 <;>
  simp [run, step, condHolds, DSPState.setReg, DSPState.setHost, DSPState.host,
    extendInto_mod, xor16_mod, page_test_iff, hp]

/-- Witness of `ld_secondary_source`: `ldn` with opcode 0xC5 (ss = 1) in a state
where AR1 = 0 and AR3 = 0x0500 lie in different pages. -/
theorem ld_secondary_source_witness :
    ldn ∈ ldHandlers ∧
    (run flatCollab none (ldn 0xC5 fresh).code (stateOf (regsAt 0x0100 0x0500) tagMem 0)).memlog
      = (stateOf (regsAt 0x0100 0x0500) tagMem 0).memlog ++
        [MemEvent.read ((stateOf (regsAt 0x0100 0x0500) tagMem 0).r (ldSource 0xC5) % 65536),
         MemEvent.read ((stateOf (regsAt 0x0100 0x0500) tagMem 0).r DSP_REG_AR3 % 65536)] :=
  ⟨by simp [ldHandlers],
   ((ld_secondary_source flatCollab ldn (by simp [ldHandlers]) 0xC5
      (stateOf (regsAt 0x0100 0x0500) tagMem 0)).1 (by decide)).2⟩

/-! ### Running the dual-load code -/

theorem ld_run (X : Collab) (opc : Nat) (st : DSPState) :
    (run X none (ld opc fresh).code st).r =
      Function.update (Function.update st.r (ldSource opc) (incremented X st (ldSource opc)))
        DSP_REG_AR3 (incremented X st DSP_REG_AR3) ∧
    (run X none (ld opc fresh).code st).rbx =
      (st.dmem (st.r (ldSource opc) % 65536) % 65536 |||
        st.dmem (ldSecondAddr st (ldSource opc)) % 65536 * 65536) ∧
    (run X none (ld opc fresh).code st).dmem = st.dmem ∧
    (run X none (ld opc fresh).code st).memlog = st.memlog ++
      [MemEvent.read (st.r (ldSource opc) % 65536),
       MemEvent.read (ldSecondAddr st (ldSource opc))] ∧
    (run X none (ld opc fresh).code st).brlog = st.brlog ++
      [(FixupBranch.not_equal, decide ((st.r (ldSource opc) % 65536) &&& 0xFC00
          ≠ (st.r DSP_REG_AR3 % 65536) &&& 0xFC00))] := by
  have hs := ldSource_lt opc
  simp only [ld_emit, fresh, List.nil_append]
  generalize ldSource opc = src at *
  by_cases hp : (st.r src % 65536) &&& 64512 = (st.r 3 % 65536) &&& 64512 <;>
  simp (disch := omega) [run, step, condHolds, DSPState.setReg, DSPState.setHost,
    DSPState.host, extendInto_mod, xor16_mod, page_test_iff, hp, ldSecondAddr, incremented,
    indexAdded, DSP_REG_AR3, DSP_REG_WR0, DSP_REG_IX0, Function.update_noteq, shl16,
    mod16_mod32]

theorem ldn_run (X : Collab) (opc : Nat) (st : DSPState) :
    (run X none (ldn opc fresh).code st).r =
      Function.update (Function.update st.r (ldSource opc) (indexAdded X st (ldSource opc)))
        DSP_REG_AR3 (incremented X st DSP_REG_AR3) ∧
    (run X none (ldn opc fresh).code st).rbx =
      (st.dmem (st.r (ldSource opc) % 65536) % 65536 |||
        st.dmem (ldSecondAddr st (ldSource opc)) % 65536 * 65536) ∧
    (run X none (ldn opc fresh).code st).dmem = st.dmem ∧
    (run X none (ldn opc fresh).code st).memlog = st.memlog ++
      [MemEvent.read (st.r (ldSource opc) % 65536),
       MemEvent.read (ldSecondAddr st (ldSource opc))] ∧
    (run X none (ldn opc fresh).code st).brlog = st.brlog ++
      [(FixupBranch.not_equal, decide ((st.r (ldSource opc) % 65536) &&& 0xFC00
          ≠ (st.r DSP_REG_AR3 % 65536) &&& 0xFC00))] := by
  have hs := ldSource_lt opc
  simp only [ldn_emit, fresh, List.nil_append]
  generalize ldSource opc = src at *
  by_cases hp : (st.r src % 65536) &&& 64512 = (st.r 3 % 65536) &&& 64512 <;>
  simp (disch := omega) [run, step, condHolds, DSPState.setReg, DSPState.setHost,
    DSPState.host, extendInto_mod, xor16_mod, page_test_iff, hp, ldSecondAddr, incremented,
    indexAdded, DSP_REG_AR3, DSP_REG_WR0, DSP_REG_IX0, Function.update_noteq, shl16,
    mod16_mod32]

theorem ldm_run (X : Collab) (opc : Nat) (st : DSPState) :
    (run X none (ldm opc fresh).code st).r =
      Function.update (Function.update st.r (ldSource opc) (incremented X st (ldSource opc)))
        DSP_REG_AR3 (indexAdded X st DSP_REG_AR3) ∧
    (run X none (ldm opc fresh).code st).rbx =
      (st.dmem (st.r (ldSource opc) % 65536) % 65536 |||
        st.dmem (ldSecondAddr st (ldSource opc)) % 65536 * 65536) ∧
    (run X none (ldm opc fresh).code st).dmem = st.dmem ∧
    (run X none (ldm opc fresh).code st).memlog = st.memlog ++
      [MemEvent.read (st.r (ldSource opc) % 65536),
       MemEvent.read (ldSecondAddr st (ldSource opc))] ∧
    (run X none (ldm opc fresh).code st).brlog = st.brlog ++
      [(FixupBranch.not_equal, decide ((st.r (ldSource opc) % 65536) &&& 0xFC00
          ≠ (st.r DSP_REG_AR3 % 65536) &&& 0xFC00))] := by
  have hs := ldSource_lt opc
  simp only [ldm_emit, fresh, List.nil_append]
  generalize ldSource opc = src at *
  by_cases hp : (st.r src % 65536) &&& 64512 = (st.r 3 % 65536) &&& 64512 <;>
  simp (disch := omega) [run, step, condHolds, DSPState.setReg, DSPState.setHost,
    DSPState.host, extendInto_mod, xor16_mod, page_test_iff, hp, ldSecondAddr, incremented,
    indexAdded, DSP_REG_AR3, DSP_REG_WR0, DSP_REG_IX0, Function.update_noteq, shl16,
    mod16_mod32]

theorem ldnm_run (X : Collab) (opc : Nat) (st : DSPState) :
    (run X none (ldnm opc fresh).code st).r =
      Function.update (Function.update st.r (ldSource opc) (indexAdded X st (ldSource opc)))
        DSP_REG_AR3 (indexAdded X st DSP_REG_AR3) ∧
    (run X none (ldnm opc fresh).code st).rbx =
      (st.dmem (st.r (ldSource opc) % 65536) % 65536 |||
        st.dmem (ldSecondAddr st (ldSource opc)) % 65536 * 65536) ∧
    (run X none (ldnm opc fresh).code st).dmem = st.dmem ∧
    (run X none (ldnm opc fresh).code st).memlog = st.memlog ++
      [MemEvent.read (st.r (ldSource opc) % 65536),
       MemEvent.read (ldSecondAddr st (ldSource opc))] ∧
    (run X none (ldnm opc fresh).code st).brlog = st.brlog ++
      [(FixupBranch.not_equal, decide ((st.r (ldSource opc) % 65536) &&& 0xFC00
          ≠ (st.r DSP_REG_AR3 % 65536) &&& 0xFC00))] := by
  have hs := ldSource_lt opc
  simp only [ldnm_emit, fresh, List.nil_append]
  generalize ldSource opc = src at *
  by_cases hp : (st.r src % 65536) &&& 64512 = (st.r 3 % 65536) &&& 64512 <;>
  simp (disch := omega) [run, step, condHolds, DSPState.setReg, DSPState.setHost,
    DSPState.host, extendInto_mod, xor16_mod, page_test_iff, hp, ldSecondAddr, incremented,
    indexAdded, DSP_REG_AR3, DSP_REG_WR0, DSP_REG_IX0, Function.update_noteq, shl16,
    mod16_mod32]

theorem ld_fields (opc opc2 : Nat) (h0 : opc2 &&& 3 = opc &&& 3)
    (h4 : (opc2 >>> 4) &&& 1 = (opc >>> 4) &&& 1) (h5 : (opc2 >>> 5) &&& 1 = (opc >>> 5) &&& 1) :
    ldSource opc2 = ldSource opc ∧ ldPrimary opc2 = ldPrimary opc ∧
      ldSecondary opc2 = ldSecondary opc := by
  simp only [ldSource, ldPrimary, ldSecondary, h0, h4, h5, and_self]

/-- C11 (the four dual-load variants differ only in pointer advance).  For every
opcode: `ld`, `ldn`, `ldm` and `ldnm` emit the same code up to the last two
instructions (first load, page test, both arms of the second load), stage the same
two tags, and at run time leave the same holding value, the same memory accesses and
the same branch decision; an opcode with the same fields d, r and ss gives the same
result.  The last two instructions are the advances: the non-AR3 source pointer is
incremented by `ld` and `ldm` and has its own index register added by `ldn` and
`ldnm`; AR3 is incremented by `ld` and `ldn` and has IX3 added by `ldm` and `ldnm`.
In every case the final register file is the old one with the source pointer and AR3
each replaced once. -/
theorem ld_variants_differ_only_in_advance (X : Collab) (opc : Nat) (e : DSPEmitter)
    (st : DSPState) :
    ((ld opc e).code = e.code ++ ldCommonCode (ldSource opc) ++
        [.increment_addr_reg (ldSource opc), .increment_addr_reg DSP_REG_AR3] ∧
      (ldn opc e).code = e.code ++ ldCommonCode (ldSource opc) ++
        [.increase_addr_reg (ldSource opc) (ldSource opc), .increment_addr_reg DSP_REG_AR3] ∧
      (ldm opc e).code = e.code ++ ldCommonCode (ldSource opc) ++
        [.increment_addr_reg (ldSource opc), .increase_addr_reg DSP_REG_AR3 DSP_REG_AR3] ∧
      (ldnm opc e).code = e.code ++ ldCommonCode (ldSource opc) ++
        [.increase_addr_reg (ldSource opc) (ldSource opc),
         .increase_addr_reg DSP_REG_AR3 DSP_REG_AR3]) ∧
    (∀ h ∈ ldHandlers, (h opc e).storeIndex = (ld opc e).storeIndex ∧
      (h opc e).storeIndex2 = (ld opc e).storeIndex2 ∧
      (run X none (h opc fresh).code st).rbx = (run X none (ld opc fresh).code st).rbx ∧
      (run X none (h opc fresh).code st).dmem = (run X none (ld opc fresh).code st).dmem ∧
      (run X none (h opc fresh).code st).memlog = (run X none (ld opc fresh).code st).memlog ∧
      (run X none (h opc fresh).code st).brlog = (run X none (ld opc fresh).code st).brlog) ∧
    (∀ h ∈ ldHandlers, ∀ opc2, opc2 &&& 3 = opc &&& 3 →
      (opc2 >>> 4) &&& 1 = (opc >>> 4) &&& 1 → (opc2 >>> 5) &&& 1 = (opc >>> 5) &&& 1 →
      h opc2 e = h opc e) ∧
    ((run X none (ld opc fresh).code st).r =
        Function.update
          (Function.update st.r (ldSource opc) (incremented X st (ldSource opc)))
          DSP_REG_AR3 (incremented X st DSP_REG_AR3) ∧
      (run X none (ldn opc fresh).code st).r =
        Function.update
          (Function.update st.r (ldSource opc) (indexAdded X st (ldSource opc)))
          DSP_REG_AR3 (incremented X st DSP_REG_AR3) ∧
      (run X none (ldm opc fresh).code st).r =
        Function.update
          (Function.update st.r (ldSource opc) (incremented X st (ldSource opc)))
          DSP_REG_AR3 (indexAdded X st DSP_REG_AR3) ∧
      (run X none (ldnm opc fresh).code st).r =
        Function.update
          (Function.update st.r (ldSource opc) (indexAdded X st (ldSource opc)))
          DSP_REG_AR3 (indexAdded X st DSP_REG_AR3)) ∧
    ldSource opc ≠ DSP_REG_AR3 := by
  have hld := ld_run X opc st
  have hldn := ldn_run X opc st
  have hldm := ldm_run X opc st
  have hldnm := ldnm_run X opc st
  refine ⟨⟨?_, ?_, ?_, ?_⟩, ?_, ?_, ⟨hld.1, hldn.1, hldm.1, hldnm.1⟩, ?_⟩
  · rw [ld_emit]
    simp [ldCommonCode]
  · rw [ldn_emit]
    simp [ldCommonCode]
  · rw [ldm_emit]
    simp [ldCommonCode]
  · rw [ldnm_emit]
    simp [ldCommonCode]
  · intro h hh
    simp only [ldHandlers, List.mem_cons, List.mem_singleton, List.not_mem_nil,
      or_false] at hh
    rcases hh with rfl | rfl | rfl | rfl
    · exact ⟨rfl, rfl, rfl, rfl, rfl, rfl⟩
    · refine ⟨by rw [ldn_emit, ld_emit], by rw [ldn_emit, ld_emit], ?_, ?_, ?_, ?_⟩
      · rw [hldn.2.1, hld.2.1]
      · rw [hldn.2.2.1, hld.2.2.1]
      · rw [hldn.2.2.2.1, hld.2.2.2.1]
      · rw [hldn.2.2.2.2, hld.2.2.2.2]
    · refine ⟨by rw [ldm_emit, ld_emit], by rw [ldm_emit, ld_emit], ?_, ?_, ?_, ?_⟩
      · rw [hldm.2.1, hld.2.1]
      · rw [hldm.2.2.1, hld.2.2.1]
      · rw [hldm.2.2.2.1, hld.2.2.2.1]
      · rw [hldm.2.2.2.2, hld.2.2.2.2]
    · refine ⟨by rw [ldnm_emit, ld_emit], by rw [ldnm_emit, ld_emit], ?_, ?_, ?_, ?_⟩
      · rw [hldnm.2.1, hld.2.1]
      · rw [hldnm.2.2.1, hld.2.2.1]
      · rw [hldnm.2.2.2.1, hld.2.2.2.1]
      · rw [hldnm.2.2.2.2, hld.2.2.2.2]
  · intro h hh opc2 h0 h4 h5
    obtain ⟨f1, f2, f3⟩ := ld_fields opc opc2 h0 h4 h5
    simp only [ldHandlers, List.mem_cons, List.mem_singleton, List.not_mem_nil,
      or_false] at hh
    rcases hh with rfl | rfl | rfl | rfl
    · rw [ld_emit, ld_emit, f1, f2, f3]
    · rw [ldn_emit, ldn_emit, f1, f2, f3]
    · rw [ldm_emit, ldm_emit, f1, f2, f3]
    · rw [ldnm_emit, ldnm_emit, f1, f2, f3]
  · have hs := ldSource_lt opc
    unfold DSP_REG_AR3
    omega

/-! ### Single-pointer load, store and move -/

theorem hold_high (a b : Nat) :
    (a % 65536 ||| b % 65536 * 65536) / 65536 % 65536 = b % 65536 := by
  rw [hold_eq]
  omega

/-- C12 (load families l and ln).  For every opcode with destination field d
(bits 3..5) and source field s (bits 0..1), and any tags before: after staging,
`storeIndex` = AXL0 + d and `storeIndex2` is untouched; the low 16 bits of the holding
value are the memory word at the old value of AR[s]; bits 16..31 of the holding value
are the current status register when the destination is an accumulator mid word
(d in 6, 7) and zero otherwise, the status register being read exactly in the former
case; the final register file is the old one with AR[s] incremented (`l`) or with
IX[s] added (`ln`). -/
theorem load_families_l_ln (X : Collab) (opc : Nat) (si si2 : Int) (st : DSPState) :
    (((l opc ⟨si, si2, [], []⟩).storeIndex
          = ((DSP_REG_AXL0 + ((opc >>> 3) &&& 7) : Nat) : Int) ∧
        (l opc ⟨si, si2, [], []⟩).storeIndex2 = si2) ∧
      (run X none (l opc ⟨si, si2, [], []⟩).code st).rbx % 65536
        = st.dmem (st.r (opc &&& 3) % 65536) % 65536 ∧
      (run X none (l opc ⟨si, si2, [], []⟩).code st).rbx / 65536 % 65536
        = (if isAccMid (DSP_REG_AXL0 + ((opc >>> 3) &&& 7)) then st.r DSP_REG_SR % 65536
            else 0) ∧
      (Instr.dsp_op_read_reg DSP_REG_SR .RAX .NONE ∈ (l opc ⟨si, si2, [], []⟩).code
        ↔ isAccMid (DSP_REG_AXL0 + ((opc >>> 3) &&& 7))) ∧
      (run X none (l opc ⟨si, si2, [], []⟩).code st).r
        = Function.update st.r (opc &&& 3) (incremented X st (opc &&& 3))) ∧
    (((ln opc ⟨si, si2, [], []⟩).storeIndex
          = ((DSP_REG_AXL0 + ((opc >>> 3) &&& 7) : Nat) : Int) ∧
        (ln opc ⟨si, si2, [], []⟩).storeIndex2 = si2) ∧
      (run X none (ln opc ⟨si, si2, [], []⟩).code st).rbx % 65536
        = st.dmem (st.r (opc &&& 3) % 65536) % 65536 ∧
      (run X none (ln opc ⟨si, si2, [], []⟩).code st).rbx / 65536 % 65536
        = (if isAccMid (DSP_REG_AXL0 + ((opc >>> 3) &&& 7)) then st.r DSP_REG_SR % 65536
            else 0) ∧
      (Instr.dsp_op_read_reg DSP_REG_SR .RAX .NONE ∈ (ln opc ⟨si, si2, [], []⟩).code
        ↔ isAccMid (DSP_REG_AXL0 + ((opc >>> 3) &&& 7))) ∧
      (run X none (ln opc ⟨si, si2, [], []⟩).code st).r
        = Function.update st.r (opc &&& 3) (indexAdded X st (opc &&& 3))) ∧
    (isAccMid (DSP_REG_AXL0 + ((opc >>> 3) &&& 7)) ↔ 6 ≤ (opc >>> 3) &&& 7) := by
  have h3 := and3_le opc
  have h7 := and7_le (opc >>> 3)
  refine ⟨?_, ?_, ?_⟩
  · rw [l_emit]
    generalize opc &&& 3 = src at *
    by_cases hacc : isAccMid (DSP_REG_AXL0 + ((opc >>> 3) &&& 7)) <;>
    simp (disch := omega) [hacc, run, step, DSPState.setReg, DSPState.setHost,
      DSPState.host, extendInto_mod, incremented, indexAdded, DSP_REG_SR, DSP_REG_WR0,
      DSP_REG_IX0, shl16, mod16_mod32, hold_lo, hold_high]
  · rw [ln_emit]
    generalize opc &&& 3 = src at *
    by_cases hacc : isAccMid (DSP_REG_AXL0 + ((opc >>> 3) &&& 7)) <;>
    simp (disch := omega) [hacc, run, step, DSPState.setReg, DSPState.setHost,
      DSPState.host, extendInto_mod, incremented, indexAdded, DSP_REG_SR, DSP_REG_WR0,
      DSP_REG_IX0, shl16, mod16_mod32, hold_lo, hold_high]
  · unfold isAccMid DSP_REG_AXL0 DSP_REG_ACM0 DSP_REG_ACM1
    omega

/-- C13 (store families s and sn).  For every opcode with address-register field d
(bits 0..1) and source field s (bits 3..4), and any tags before: the emitted code
performs exactly one data-memory access, a write at the old value of AR[d] of the
16-bit value read from register ACL0 + s (the saturating read for an accumulator mid
word); the final register file is the old one with AR[d] incremented (`s`) or with
IX[d] added (`sn`); `storeIndex`, `storeIndex2` and the holding value are unchanged
and nothing is staged, so a flush that follows emits no register write. -/
theorem store_families_s_sn (X : Collab) (opc : Nat) (si si2 : Int) (st : DSPState) :
    (((s opc ⟨si, si2, [], []⟩).storeIndex = si ∧
        (s opc ⟨si, si2, [], []⟩).storeIndex2 = si2 ∧
        (s opc ⟨si, si2, [], []⟩).staged = []) ∧
      (run X none (s opc ⟨si, si2, [], []⟩).code st).rbx = st.rbx ∧
      (run X none (s opc ⟨si, si2, [], []⟩).code st).memlog = st.memlog ++
        [MemEvent.write (st.r (opc &&& 3) % 65536)
          ((if isAccMid (DSP_REG_ACL0 + ((opc >>> 3) &&& 3))
              then X.saturate st.r (DSP_REG_ACL0 + ((opc >>> 3) &&& 3))
              else st.r (DSP_REG_ACL0 + ((opc >>> 3) &&& 3))) % 65536)] ∧
      (run X none (s opc ⟨si, si2, [], []⟩).code st).dmem =
        (if X.writable (st.r (opc &&& 3) % 65536) then
          Function.update st.dmem (st.r (opc &&& 3) % 65536)
            ((if isAccMid (DSP_REG_ACL0 + ((opc >>> 3) &&& 3))
                then X.saturate st.r (DSP_REG_ACL0 + ((opc >>> 3) &&& 3))
                else st.r (DSP_REG_ACL0 + ((opc >>> 3) &&& 3))) % 65536)
          else st.dmem) ∧
      (run X none (s opc ⟨si, si2, [], []⟩).code st).r
        = Function.update st.r (opc &&& 3) (incremented X st (opc &&& 3)) ∧
      (popExtValueToReg (s opc fresh)).code = (s opc fresh).code) ∧
    (((sn opc ⟨si, si2, [], []⟩).storeIndex = si ∧
        (sn opc ⟨si, si2, [], []⟩).storeIndex2 = si2 ∧
        (sn opc ⟨si, si2, [], []⟩).staged = []) ∧
      (run X none (sn opc ⟨si, si2, [], []⟩).code st).rbx = st.rbx ∧
      (run X none (sn opc ⟨si, si2, [], []⟩).code st).memlog = st.memlog ++
        [MemEvent.write (st.r (opc &&& 3) % 65536)
          ((if isAccMid (DSP_REG_ACL0 + ((opc >>> 3) &&& 3))
              then X.saturate st.r (DSP_REG_ACL0 + ((opc >>> 3) &&& 3))
              else st.r (DSP_REG_ACL0 + ((opc >>> 3) &&& 3))) % 65536)] ∧
      (run X none (sn opc ⟨si, si2, [], []⟩).code st).dmem =
        (if X.writable (st.r (opc &&& 3) % 65536) then
          Function.update st.dmem (st.r (opc &&& 3) % 65536)
            ((if isAccMid (DSP_REG_ACL0 + ((opc >>> 3) &&& 3))
                then X.saturate st.r (DSP_REG_ACL0 + ((opc >>> 3) &&& 3))
                else st.r (DSP_REG_ACL0 + ((opc >>> 3) &&& 3))) % 65536)
          else st.dmem) ∧
      (run X none (sn opc ⟨si, si2, [], []⟩).code st).r
        = Function.update st.r (opc &&& 3) (indexAdded X st (opc &&& 3)) ∧
      (popExtValueToReg (sn opc fresh)).code = (sn opc fresh).code) := by
  have h3 := and3_le opc
  refine ⟨?_, ?_⟩
  · rw [s_emit, s_emit]
    simp only [fresh, pop_none]
    generalize opc &&& 3 = dst at *
    by_cases hacc : isAccMid (DSP_REG_ACL0 + ((opc >>> 3) &&& 3)) <;>
    simp (disch := omega) [hacc, run, step, DSPState.setReg, DSPState.setHost,
      DSPState.host, extendInto, incremented, indexAdded, DSP_REG_WR0, DSP_REG_IX0]
  · rw [sn_emit, sn_emit]
    simp only [fresh, pop_none]
    generalize opc &&& 3 = dst at *
    by_cases hacc : isAccMid (DSP_REG_ACL0 + ((opc >>> 3) &&& 3)) <;>
    simp (disch := omega) [hacc, run, step, DSPState.setReg, DSPState.setHost,
      DSPState.host, extendInto, incremented, indexAdded, DSP_REG_WR0, DSP_REG_IX0]

/-- C14 as stated fails.  The instruction word 0b0000000000010001 handled by `mv`
reads register ACL1 (accumulator 1 low word), not the mid word ACM1: with
ACM1 = 0x1234 and ACL1 = 0x5678, after staging and flush AX0.L holds 0x5678, not
0x1234. -/
theorem mv_end_to_end_counterexample :
    (mv 0b0000000000010001 fresh).code = [.dsp_op_read_reg DSP_REG_ACL1 .RBX .ZERO] ∧
    (run flatCollab none (popExtValueToReg (mv 0b0000000000010001 fresh)).code
      (stateOf (regsOf [(DSP_REG_ACM1, 0x1234), (DSP_REG_ACL1, 0x5678)]) tagMem 0)).r
        DSP_REG_AXL0 = 0x5678 ∧
    (run flatCollab none (popExtValueToReg (mv 0b0000000000010001 fresh)).code
      (stateOf (regsOf [(DSP_REG_ACM1, 0x1234), (DSP_REG_ACL1, 0x5678)]) tagMem 0)).r
        DSP_REG_AXL0 ≠ 0x1234 := by
  decide

/-- C14 amended.  The instruction word 0b0000000000010001 handled by `mv` has d = 0
(destination AX0.L) and s = 1, and its source is the low word of accumulator 1
(ACL1), read without saturation; given ACL1 = 0x1234, after staging and flush
AX0.L = 0x1234, and the emitted code performs no data-memory read or write. -/
theorem mv_end_to_end (X : Collab) (st : DSPState)
    (h : st.r DSP_REG_ACL1 % 65536 = 0x1234) :
    ((0b0000000000010001 >>> 2) &&& 3 = 0 ∧ 0b0000000000010001 &&& 3 = 1) ∧
    (popExtValueToReg (mv 0b0000000000010001 fresh)).code =
      [.dsp_op_read_reg DSP_REG_ACL1 .RBX .ZERO, .dsp_op_write_reg DSP_REG_AXL0 .RBX] ∧
    (run X none (popExtValueToReg (mv 0b0000000000010001 fresh)).code st).r DSP_REG_AXL0
      = 0x1234 ∧
    (run X none (popExtValueToReg (mv 0b0000000000010001 fresh)).code st).memlog
      = st.memlog ∧
    (run X none (popExtValueToReg (mv 0b0000000000010001 fresh)).code st).dmem = st.dmem := by
  have hc : (popExtValueToReg (mv 0b0000000000010001 fresh)).code =
      [.dsp_op_read_reg DSP_REG_ACL1 .RBX .ZERO, .dsp_op_write_reg DSP_REG_AXL0 .RBX] := by
    decide
  refine ⟨by decide, hc, ?_, ?_, ?_⟩ <;>
  rw [hc] <;>
  simp [run, step, DSPState.setReg, DSPState.setHost, DSPState.host, extendInto, h]

/-- Witness of `mv_end_to_end`: ACL1 = 0x1234 while ACM1 = 0xFFFF. -/
theorem mv_end_to_end_witness :
    (run flatCollab none (popExtValueToReg (mv 0b0000000000010001 fresh)).code
      (stateOf (regsOf [(DSP_REG_ACL1, 0x1234), (DSP_REG_ACM1, 0xFFFF)]) tagMem 0)).r
        DSP_REG_AXL0 = 0x1234 :=
  (mv_end_to_end flatCollab
    (stateOf (regsOf [(DSP_REG_ACL1, 0x1234), (DSP_REG_ACM1, 0xFFFF)]) tagMem 0)
    (by decide)).2.2.1

/-! ### Source and destinations of the dual load -/

/-- C15 as stated fails.  `ld` with opcode 0xC3 (ss = 3, d = 0), AR0 = 0x0100 and
AR3 = 0x0500: the first load reads address 0x0100, the address in AR0, not the
address 0x0500 in AR3; AR0 is advanced, and AR3 is advanced once, not twice. -/
theorem ld_source_selection_counterexample :
    0xC3 &&& 3 = 3 ∧
    (run flatCollab none (ld 0xC3 fresh).code (stateOf (regsAt 0x0100 0x0500) tagMem 0)).memlog
      = [MemEvent.read 0x0100, MemEvent.read 0x0500] ∧
    (run flatCollab none (ld 0xC3 fresh).code
        (stateOf (regsAt 0x0100 0x0500) tagMem 0)).memlog.head?
      ≠ some (MemEvent.read 0x0500) ∧
    (run flatCollab none (ld 0xC3 fresh).code (stateOf (regsAt 0x0100 0x0500) tagMem 0)).r
        DSP_REG_AR0 = 0x0101 ∧
    (run flatCollab none (ld 0xC3 fresh).code (stateOf (regsAt 0x0100 0x0500) tagMem 0)).r
        DSP_REG_AR3 = 0x0501 := by
  decide

/-- C15 amended.  For each dual-load handler, every opcode and every state: the two
source addresses are the value of AR3 and the value of one other addressing
register, which is AR[ss] when the selector ss is 0, 1 or 2 and, when ss = 3, AR0 or
AR1 as numbered by the d bit (bit 5), never AR3 itself; that register is the one
used for the first load, for the page comparison and for the non-AR3 advance. -/
theorem ld_source_selection (X : Collab) :
    ∀ h ∈ ldHandlers, ∀ (opc : Nat) (st : DSPState),
      (opc &&& 3 ≠ 3 → ldSource opc = opc &&& 3) ∧
      (opc &&& 3 = 3 → ldSource opc = (opc >>> 5) &&& 1) ∧
      ldSource opc ≠ DSP_REG_AR3 ∧
      (run X none (h opc fresh).code st).memlog = st.memlog ++
        [MemEvent.read (st.r (ldSource opc) % 65536),
         MemEvent.read (ldSecondAddr st (ldSource opc))] ∧
      (ldSecondAddr st (ldSource opc) = st.r (ldSource opc) % 65536 ∨
        ldSecondAddr st (ldSource opc) = st.r DSP_REG_AR3 % 65536) ∧
      (run X none (h opc fresh).code st).brlog = st.brlog ++
        [(FixupBranch.not_equal, decide ((st.r (ldSource opc) % 65536) &&& 0xFC00
            ≠ (st.r DSP_REG_AR3 % 65536) &&& 0xFC00))] ∧
      ((run X none (h opc fresh).code st).r (ldSource opc)
          = incremented X st (ldSource opc) ∨
        (run X none (h opc fresh).code st).r (ldSource opc)
          = indexAdded X st (ldSource opc)) ∧
      ((run X none (h opc fresh).code st).r DSP_REG_AR3 = incremented X st DSP_REG_AR3 ∨
        (run X none (h opc fresh).code st).r DSP_REG_AR3 = indexAdded X st DSP_REG_AR3) := by
  intro h hh opc st
  have hs := ldSource_lt opc
  have hne : ldSource opc ≠ DSP_REG_AR3 := by
    unfold DSP_REG_AR3
    omega
  have hsec : ldSecondAddr st (ldSource opc) = st.r (ldSource opc) % 65536 ∨
      ldSecondAddr st (ldSource opc) = st.r DSP_REG_AR3 % 65536 := by
    unfold ldSecondAddr
    split_ifs
    · exact Or.inl rfl
    · exact Or.inr rfl
  have h1 : opc &&& 3 ≠ 3 → ldSource opc = opc &&& 3 := by
    intro h3
    simp [ldSource, DSP_REG_AR3, h3]
  have h2 : opc &&& 3 = 3 → ldSource opc = (opc >>> 5) &&& 1 := by
    intro h3
    simp [ldSource, DSP_REG_AR3, h3]
  simp only [ldHandlers, List.mem_cons, List.mem_singleton, List.not_mem_nil, or_false] at hh
  rcases hh with rfl | rfl | rfl | rfl
  · obtain ⟨r1, _, _, r4, r5⟩ := ld_run X opc st
    refine ⟨h1, h2, hne, r4, hsec, r5, Or.inl ?_, Or.inl ?_⟩
    · rw [r1, Function.update_noteq hne, Function.update_same]
    · rw [r1, Function.update_same]
  · obtain ⟨r1, _, _, r4, r5⟩ := ldn_run X opc st
    refine ⟨h1, h2, hne, r4, hsec, r5, Or.inr ?_, Or.inl ?_⟩
    · rw [r1, Function.update_noteq hne, Function.update_same]
    · rw [r1, Function.update_same]
  · obtain ⟨r1, _, _, r4, r5⟩ := ldm_run X opc st
    refine ⟨h1, h2, hne, r4, hsec, r5, Or.inl ?_, Or.inr ?_⟩
    · rw [r1, Function.update_noteq hne, Function.update_same]
    · rw [r1, Function.update_same]
  · obtain ⟨r1, _, _, r4, r5⟩ := ldnm_run X opc st
    refine ⟨h1, h2, hne, r4, hsec, r5, Or.inr ?_, Or.inr ?_⟩
    · rw [r1, Function.update_noteq hne, Function.update_same]
    · rw [r1, Function.update_same]

/-- Witness of `ld_source_selection`: `ld` with opcode 0xC3 (ss = 3, d = 0) loads
first through AR0. -/
theorem ld_source_selection_witness :
    ld ∈ ldHandlers ∧ ldSource 0xC3 = (0xC3 >>> 5) &&& 1 ∧
    (run flatCollab none (ld 0xC3 fresh).code (stateOf (regsAt 0x0100 0x0500) tagMem 0)).memlog
      = (stateOf (regsAt 0x0100 0x0500) tagMem 0).memlog ++
        [MemEvent.read ((stateOf (regsAt 0x0100 0x0500) tagMem 0).r (ldSource 0xC3) % 65536),
         MemEvent.read (ldSecondAddr (stateOf (regsAt 0x0100 0x0500) tagMem 0)
           (ldSource 0xC3))] :=
  ⟨by simp [ldHandlers],
   (ld_source_selection flatCollab ld (by simp [ldHandlers]) 0xC3
      (stateOf (regsAt 0x0100 0x0500) tagMem 0)).2.1 (by decide),
   (ld_source_selection flatCollab ld (by simp [ldHandlers]) 0xC3
      (stateOf (regsAt 0x0100 0x0500) tagMem 0)).2.2.2.1⟩

/-- C16 as stated fails.  `ld` with opcode 0xE0 (ss = 0, d = 1) stages the first
load with destination tag AX0.H, which is neither AX0.L nor AX1.L. -/
theorem ld_primary_destination_counterexample :
    0xE0 &&& 3 ≠ 3 ∧ (0xE0 >>> 5) &&& 1 = 1 ∧
    (ld 0xE0 fresh).storeIndex = (DSP_REG_AXH0 : Int) ∧
    (ld 0xE0 fresh).storeIndex ≠ (DSP_REG_AXL0 : Int) ∧
    (ld 0xE0 fresh).storeIndex ≠ (DSP_REG_AXL1 : Int) := by
  decide

/-- C16 amended.  For each dual-load handler and every opcode whose selector ss is
not 3: the first load, the word at the address in AR[ss], is staged as the primary
(low 16 bits of the holding value) with a half of auxiliary register AX0 as its
destination tag: AX0.L when the d bit is 0 and AX0.H when the d bit is 1. -/
theorem ld_primary_destination (X : Collab) :
    ∀ h ∈ ldHandlers, ∀ (opc : Nat) (st : DSPState), opc &&& 3 ≠ 3 →
      (h opc fresh).storeIndex = ((DSP_REG_AXL0 + 2 * ((opc >>> 5) &&& 1) : Nat) : Int) ∧
      ((opc >>> 5) &&& 1 = 0 → (h opc fresh).storeIndex = (DSP_REG_AXL0 : Int)) ∧
      ((opc >>> 5) &&& 1 = 1 → (h opc fresh).storeIndex = (DSP_REG_AXH0 : Int)) ∧
      (run X none (h opc fresh).code st).rbx % 65536
        = st.dmem (st.r (opc &&& 3) % 65536) % 65536 ∧
      (run X none (h opc fresh).code st).memlog.head?
        = (st.memlog ++ [MemEvent.read (st.r (opc &&& 3) % 65536)]).head? := by
  intro h hh opc st hss
  have e1 : ldSource opc = opc &&& 3 := by simp [ldSource, DSP_REG_AR3, hss]
  have e2 : ldPrimary opc = DSP_REG_AXL0 + 2 * ((opc >>> 5) &&& 1) := by
    simp [ldPrimary, DSP_REG_AR3, hss]
  have hd0 : (opc >>> 5) &&& 1 = 0 →
      ((DSP_REG_AXL0 + 2 * ((opc >>> 5) &&& 1) : Nat) : Int) = (DSP_REG_AXL0 : Int) := by
    intro h0
    rw [h0]
    rfl
  have hd1 : (opc >>> 5) &&& 1 = 1 →
      ((DSP_REG_AXL0 + 2 * ((opc >>> 5) &&& 1) : Nat) : Int) = (DSP_REG_AXH0 : Int) := by
    intro h0
    rw [h0]
    rfl
  have hhead : ∀ (a b : MemEvent),
      (st.memlog ++ [a, b]).head? = (st.memlog ++ [a]).head? := by
    intro a b
    cases st.memlog <;> rfl
  simp only [ldHandlers, List.mem_cons, List.mem_singleton, List.not_mem_nil, or_false] at hh
  rcases hh with rfl | rfl | rfl | rfl
  · obtain ⟨_, r2, _, r4, _⟩ := ld_run X opc st
    have ht : (ld opc fresh).storeIndex
        = ((DSP_REG_AXL0 + 2 * ((opc >>> 5) &&& 1) : Nat) : Int) := by
      rw [ld_emit, e2]
    refine ⟨ht, fun h0 => ht.trans (hd0 h0), fun h0 => ht.trans (hd1 h0), ?_, ?_⟩
    · rw [r2, hold_lo, e1]
    · rw [r4, hhead, e1]
  · obtain ⟨_, r2, _, r4, _⟩ := ldn_run X opc st
    have ht : (ldn opc fresh).storeIndex
        = ((DSP_REG_AXL0 + 2 * ((opc >>> 5) &&& 1) : Nat) : Int) := by
      rw [ldn_emit, e2]
    refine ⟨ht, fun h0 => ht.trans (hd0 h0), fun h0 => ht.trans (hd1 h0), ?_, ?_⟩
    · rw [r2, hold_lo, e1]
    · rw [r4, hhead, e1]
  · obtain ⟨_, r2, _, r4, _⟩ := ldm_run X opc st
    have ht : (ldm opc fresh).storeIndex
        = ((DSP_REG_AXL0 + 2 * ((opc >>> 5) &&& 1) : Nat) : Int) := by
      rw [ldm_emit, e2]
    refine ⟨ht, fun h0 => ht.trans (hd0 h0), fun h0 => ht.trans (hd1 h0), ?_, ?_⟩
    · rw [r2, hold_lo, e1]
    · rw [r4, hhead, e1]
  · obtain ⟨_, r2, _, r4, _⟩ := ldnm_run X opc st
    have ht : (ldnm opc fresh).storeIndex
        = ((DSP_REG_AXL0 + 2 * ((opc >>> 5) &&& 1) : Nat) : Int) := by
      rw [ldnm_emit, e2]
    refine ⟨ht, fun h0 => ht.trans (hd0 h0), fun h0 => ht.trans (hd1 h0), ?_, ?_⟩
    · rw [r2, hold_lo, e1]
    · rw [r4, hhead, e1]

/-- Witness of `ld_primary_destination`: `ld` with opcode 0xE0 (ss = 0, d = 1). -/
theorem ld_primary_destination_witness :
    ld ∈ ldHandlers ∧ 0xE0 &&& 3 ≠ 3 ∧ (ld 0xE0 fresh).storeIndex = (DSP_REG_AXH0 : Int) :=
  ⟨by simp [ldHandlers], by decide,
   (ld_primary_destination flatCollab ld (by simp [ldHandlers]) 0xE0
      (stateOf (regsAt 0x0100 0x0500) tagMem 0) (by decide)).2.2.1 (by decide)⟩

/-! ### Tag assignments -/

theorem dr_emit (opc : Nat) (e : DSPEmitter) :
    dr opc e = ⟨e.storeIndex, e.storeIndex2,
      e.code ++ [.decrement_addr_reg (opc &&& 3)], e.staged⟩ := rfl

theorem ir_emit (opc : Nat) (e : DSPEmitter) :
    ir opc e = ⟨e.storeIndex, e.storeIndex2,
      e.code ++ [.increment_addr_reg (opc &&& 3)], e.staged⟩ := rfl

theorem nr_emit (opc : Nat) (e : DSPEmitter) :
    nr opc e = ⟨e.storeIndex, e.storeIndex2,
      e.code ++ [.increase_addr_reg (opc &&& 3) (opc &&& 3)], e.staged⟩ := by
  have h := and3_le opc
  have e0 : (opc &&& 3) % 256 = opc &&& 3 := Nat.mod_eq_of_lt (by omega)
  simp only [nr, e0, emit]

/-- C17 as stated fails.  Starting from both tags `-1`, `ld` with opcode 0xC0
assigns `storeIndex2` twice, once in each arm of the run-time branch (both times
with the tag of AX1.L), so the second assignment overwrites a tag that is already
set. -/
theorem tag_assignments_counterexample :
    (ld 0xC0 fresh).staged =
      [TagWrite.storeIndex 24, TagWrite.storeIndex2 25, TagWrite.storeIndex2 25] ∧
    countStoreIndex2 (ld 0xC0 fresh).staged = 2 ∧
    ¬ countStoreIndex2 (ld 0xC0 fresh).staged ≤ 1 := by
  decide

/-- C17 amended.  For every opcode, starting from `storeIndex = storeIndex2 = -1`:
`dr`, `ir`, `nr`, `s` and `sn` assign neither tag; `mv`, `l`, `ln` and the eight
`ls`/`sl` variants assign `storeIndex` exactly once and never `storeIndex2`; the four
`ld` variants assign `storeIndex` exactly once and `storeIndex2` twice, once in each
arm of the run-time branch and both times with the same register index, so a tag
that is set never changes its value before the next `popExtValueToReg`. -/
theorem tag_assignments (opc : Nat) :
    (∀ h ∈ plainHandlers, (h opc fresh).staged = [] ∧
      (h opc fresh).storeIndex = -1 ∧ (h opc fresh).storeIndex2 = -1) ∧
    (∀ h ∈ singleHandlers,
      (h opc fresh).staged = [TagWrite.storeIndex (h opc fresh).storeIndex] ∧
      countStoreIndex (h opc fresh).staged = 1 ∧
      countStoreIndex2 (h opc fresh).staged = 0 ∧
      (h opc fresh).storeIndex ≠ -1 ∧ (h opc fresh).storeIndex2 = -1) ∧
    (∀ h ∈ ldHandlers,
      (h opc fresh).staged = [TagWrite.storeIndex (h opc fresh).storeIndex,
        TagWrite.storeIndex2 (h opc fresh).storeIndex2,
        TagWrite.storeIndex2 (h opc fresh).storeIndex2] ∧
      countStoreIndex (h opc fresh).staged = 1 ∧
      countStoreIndex2 (h opc fresh).staged = 2 ∧
      (h opc fresh).storeIndex ≠ -1 ∧ (h opc fresh).storeIndex2 ≠ -1) := by
  refine ⟨?_, ?_, ?_⟩
  · intro h hh
    simp only [plainHandlers, List.mem_cons, List.mem_singleton, List.not_mem_nil,
      or_false] at hh
    rcases hh with rfl | rfl | rfl | rfl | rfl <;>
    simp only [dr_emit, ir_emit, nr_emit, s_emit, sn_emit, fresh, and_self]
  · intro h hh
    simp only [singleHandlers, List.mem_cons, List.mem_singleton, List.not_mem_nil,
      or_false] at hh
    rcases hh with rfl | rfl | rfl | rfl | rfl | rfl | rfl | rfl | rfl | rfl | rfl <;>
    simp only [mv_emit, l_emit, ln_emit, ls_emit, lsn_emit, lsm_emit, lsnm_emit, sl_emit,
      sln_emit, slm_emit, slnm_emit, fresh, List.nil_append, countStoreIndex,
      countStoreIndex2, true_and, and_true] <;>
    omega
  · intro h hh
    simp only [ldHandlers, List.mem_cons, List.mem_singleton, List.not_mem_nil,
      or_false] at hh
    rcases hh with rfl | rfl | rfl | rfl <;>
    simp only [ld_emit, ldn_emit, ldm_emit, ldnm_emit, fresh, List.nil_append,
      countStoreIndex, countStoreIndex2, true_and] <;>
    omega

/-- Witness of `tag_assignments`: `ldnm` with opcode 0xFE assigns `storeIndex2`
twice. -/
theorem tag_assignments_witness :
    ldnm ∈ ldHandlers ∧ countStoreIndex (ldnm 0xFE fresh).staged = 1 ∧
    countStoreIndex2 (ldnm 0xFE fresh).staged = 2 :=
  ⟨by simp [ldHandlers],
   ((tag_assignments 0xFE).2.2 ldnm (by simp [ldHandlers])).2.1,
   ((tag_assignments 0xFE).2.2 ldnm (by simp [ldHandlers])).2.2.1⟩

/-- C18 (no collision between the secondary value and the status-register copy).
For every handler of the file and every opcode, starting from both tags `-1`: either
no secondary destination is staged, or the handler is one of `ld`, `ldn`, `ldm`,
`ldnm`, both staged destinations are auxiliary registers (indices AXL0..AXH1), the
two destinations are distinct, and both arms of the run-time branch assign the same
secondary tag; hence the primary is never an accumulator mid word when a secondary
is staged. -/
theorem secondary_only_with_aux_primary :
    ∀ h ∈ allHandlers, ∀ (opc : Nat),
      (h opc fresh).storeIndex2 = -1 ∨
      (h ∈ ldHandlers ∧
        ((DSP_REG_AXL0 : Int) ≤ (h opc fresh).storeIndex ∧
          (h opc fresh).storeIndex ≤ (DSP_REG_AXH1 : Int)) ∧
        ((DSP_REG_AXL0 : Int) ≤ (h opc fresh).storeIndex2 ∧
          (h opc fresh).storeIndex2 ≤ (DSP_REG_AXH1 : Int)) ∧
        (h opc fresh).storeIndex ≠ (h opc fresh).storeIndex2 ∧
        (h opc fresh).staged = [TagWrite.storeIndex (h opc fresh).storeIndex,
          TagWrite.storeIndex2 (h opc fresh).storeIndex2,
          TagWrite.storeIndex2 (h opc fresh).storeIndex2] ∧
        ¬ isAccMid (h opc fresh).storeIndex.toNat) := by
  intro h hh opc
  have hp := ldPrimary_range opc
  have hq := ldSecondary_range opc
  have hpq : ldPrimary opc ≠ ldSecondary opc := by
    have h1 := and1_le (opc >>> 5)
    have h2 := and1_le (opc >>> 4)
    unfold ldPrimary ldSecondary DSP_REG_AXL0 DSP_REG_AXH0 DSP_REG_AXL1
    split_ifs <;> omega
  have hacc : ¬ isAccMid ((ldPrimary opc : Int)).toNat := by
    unfold isAccMid DSP_REG_ACM0 DSP_REG_ACM1
    omega
  simp only [allHandlers, List.mem_cons, List.mem_singleton, List.not_mem_nil,
    or_false] at hh
  rcases hh with rfl | rfl | rfl | rfl | rfl | rfl | rfl | rfl | rfl | rfl | rfl | rfl |
    rfl | rfl | rfl | rfl | rfl | rfl | rfl | rfl
  · exact Or.inl rfl
  · exact Or.inl rfl
  · exact Or.inl (by rw [nr_emit]; rfl)
  · exact Or.inl (by rw [mv_emit]; rfl)
  · exact Or.inl (by rw [s_emit]; rfl)
  · exact Or.inl (by rw [sn_emit]; rfl)
  · exact Or.inl (by rw [l_emit]; rfl)
  · exact Or.inl (by rw [ln_emit]; rfl)
  · exact Or.inl (by rw [ls_emit]; rfl)
  · exact Or.inl (by rw [lsn_emit]; rfl)
  · exact Or.inl (by rw [lsm_emit]; rfl)
  · exact Or.inl (by rw [lsnm_emit]; rfl)
  · exact Or.inl (by rw [sl_emit]; rfl)
  · exact Or.inl (by rw [sln_emit]; rfl)
  · exact Or.inl (by rw [slm_emit]; rfl)
  · exact Or.inl (by rw [slnm_emit]; rfl)
  · refine Or.inr ⟨by simp [ldHandlers], ?_⟩
    rw [ld_emit]
    refine ⟨?_, ?_, ?_, rfl, hacc⟩ <;>
    simp only [DSP_REG_AXL0, DSP_REG_AXH1] <;> omega
  · refine Or.inr ⟨by simp [ldHandlers], ?_⟩
    rw [ldn_emit]
    refine ⟨?_, ?_, ?_, rfl, hacc⟩ <;>
    simp only [DSP_REG_AXL0, DSP_REG_AXH1] <;> omega
  · refine Or.inr ⟨by simp [ldHandlers], ?_⟩
    rw [ldm_emit]
    refine ⟨?_, ?_, ?_, rfl, hacc⟩ <;>
    simp only [DSP_REG_AXL0, DSP_REG_AXH1] <;> omega
  · refine Or.inr ⟨by simp [ldHandlers], ?_⟩
    rw [ldnm_emit]
    refine ⟨?_, ?_, ?_, rfl, hacc⟩ <;>
    simp only [DSP_REG_AXL0, DSP_REG_AXH1] <;> omega

/-- Witness of `secondary_only_with_aux_primary`: `l` with opcode 0x70 stages an
accumulator mid word and no secondary. -/
theorem secondary_only_with_aux_primary_witness :
    l ∈ allHandlers ∧
    ((l 0x70 fresh).storeIndex2 = -1 ∨
      (l ∈ ldHandlers ∧
        ((DSP_REG_AXL0 : Int) ≤ (l 0x70 fresh).storeIndex ∧
          (l 0x70 fresh).storeIndex ≤ (DSP_REG_AXH1 : Int)) ∧
        ((DSP_REG_AXL0 : Int) ≤ (l 0x70 fresh).storeIndex2 ∧
          (l 0x70 fresh).storeIndex2 ≤ (DSP_REG_AXH1 : Int)) ∧
        (l 0x70 fresh).storeIndex ≠ (l 0x70 fresh).storeIndex2 ∧
        (l 0x70 fresh).staged = [TagWrite.storeIndex (l 0x70 fresh).storeIndex,
          TagWrite.storeIndex2 (l 0x70 fresh).storeIndex2,
          TagWrite.storeIndex2 (l 0x70 fresh).storeIndex2] ∧
        ¬ isAccMid (l 0x70 fresh).storeIndex.toNat)) :=
  ⟨by simp [allHandlers],
   secondary_only_with_aux_primary l (by simp [allHandlers]) 0x70⟩

/-! ### Order of store and load in the dual load-store handlers -/

/-- C19 (store precedes load).  For every opcode and state: each of `ls`, `lsn`,
`lsm`, `lsnm` performs exactly two data-memory accesses, first the write at the old
value of AR3 of the word read from ACM0 + s, then the read at the old value of AR0;
each of `sl`, `sln`, `slm`, `slnm` first writes at the old value of AR0, then reads at
the old value of AR3.  The staged value is the word found at the load address after
the store; hence when AR0 and AR3 hold the same writable address, the staged value
is the word the same instruction just stored. -/
theorem store_precedes_load (X : Collab) (opc : Nat) (st : DSPState) :
    (∀ h ∈ [ls, lsn, lsm, lsnm],
      (run X none (h opc fresh).code st).memlog = st.memlog ++
        [MemEvent.write (st.r DSP_REG_AR3 % 65536) (st.r (DSP_REG_ACM0 + (opc &&& 1)) % 65536),
         MemEvent.read (st.r DSP_REG_AR0 % 65536)] ∧
      (run X none (h opc fresh).code st).rbx =
        (if X.writable (st.r DSP_REG_AR3 % 65536) then
          Function.update st.dmem (st.r DSP_REG_AR3 % 65536)
            (st.r (DSP_REG_ACM0 + (opc &&& 1)) % 65536)
          else st.dmem) (st.r DSP_REG_AR0 % 65536) % 65536) ∧
    (∀ h ∈ [sl, sln, slm, slnm],
      (run X none (h opc fresh).code st).memlog = st.memlog ++
        [MemEvent.write (st.r DSP_REG_AR0 % 65536) (st.r (DSP_REG_ACM0 + (opc &&& 1)) % 65536),
         MemEvent.read (st.r DSP_REG_AR3 % 65536)] ∧
      (run X none (h opc fresh).code st).rbx =
        (if X.writable (st.r DSP_REG_AR0 % 65536) then
          Function.update st.dmem (st.r DSP_REG_AR0 % 65536)
            (st.r (DSP_REG_ACM0 + (opc &&& 1)) % 65536)
          else st.dmem) (st.r DSP_REG_AR3 % 65536) % 65536) ∧
    (∀ h ∈ dualLoadStoreHandlers,
      st.r DSP_REG_AR0 % 65536 = st.r DSP_REG_AR3 % 65536 →
      X.writable (st.r DSP_REG_AR0 % 65536) = true →
      (run X none (h opc fresh).code st).rbx = st.r (DSP_REG_ACM0 + (opc &&& 1)) % 65536 ∧
      (h opc fresh).storeIndex = ((DSP_REG_AXL0 + ((opc >>> 4) &&& 3) : Nat) : Int)) := by
  have h1 := and1_le opc
  refine ⟨?_, ?_, ?_⟩
  · intro h hh
    simp only [List.mem_cons, List.mem_singleton, List.not_mem_nil, or_false] at hh
    rcases hh with rfl | rfl | rfl | rfl <;>
    simp only [ls_emit, lsn_emit, lsm_emit, lsnm_emit, fresh, List.nil_append] <;>
    generalize opc &&& 1 = sf at * <;>
    simp [run, step, DSPState.setReg, DSPState.setHost, DSPState.host, extendInto,
      extendInto_mod, DSP_REG_AR0, DSP_REG_AR3]
  · intro h hh
    simp only [List.mem_cons, List.mem_singleton, List.not_mem_nil, or_false] at hh
    rcases hh with rfl | rfl | rfl | rfl <;>
    simp only [sl_emit, sln_emit, slm_emit, slnm_emit, fresh, List.nil_append] <;>
    generalize opc &&& 1 = sf at * <;>
    simp [run, step, DSPState.setReg, DSPState.setHost, DSPState.host, extendInto,
      extendInto_mod, DSP_REG_AR0, DSP_REG_AR3]
  · intro h hh heq hw
    have hw3 : X.writable (st.r 3 % 65536) = true := by
      have := heq
      simp only [DSP_REG_AR0, DSP_REG_AR3] at this
      rw [← this]
      exact hw
    have hw0 : X.writable (st.r 0 % 65536) = true := hw
    have heq0 : st.r 0 % 65536 = st.r 3 % 65536 := heq
    simp only [dualLoadStoreHandlers, List.mem_cons, List.mem_singleton, List.not_mem_nil,
      or_false] at hh
    rcases hh with rfl | rfl | rfl | rfl | rfl | rfl | rfl | rfl <;>
    simp only [ls_emit, lsn_emit, lsm_emit, lsnm_emit, sl_emit, sln_emit, slm_emit,
      slnm_emit, fresh, List.nil_append] <;>
    generalize opc &&& 1 = sf at * <;>
    simp [run, step, DSPState.setReg, DSPState.setHost, DSPState.host, extendInto,
      extendInto_mod, DSP_REG_AR0, DSP_REG_AR3, hw0, hw3, heq0]

/-- Witness of `store_precedes_load`: `ls` with opcode 0x80, AR0 = AR3 = 0x0200 and
ACM0 = 0x1234: the value staged for AX0.L is the stored 0x1234, not the previous
content 0xA200 of address 0x0200. -/
theorem store_precedes_load_witness :
    ls ∈ dualLoadStoreHandlers ∧
    (run flatCollab none (ls 0x80 fresh).code
        (stateOf (regsOf [(DSP_REG_AR0, 0x0200), (DSP_REG_AR3, 0x0200), (DSP_REG_ACM0, 0x1234)])
          tagMem 0)).rbx
      = (stateOf (regsOf [(DSP_REG_AR0, 0x0200), (DSP_REG_AR3, 0x0200), (DSP_REG_ACM0, 0x1234)])
          tagMem 0).r (DSP_REG_ACM0 + (0x80 &&& 1)) % 65536 :=
  ⟨by simp [dualLoadStoreHandlers],
   ((store_precedes_load flatCollab 0x80
      (stateOf (regsOf [(DSP_REG_AR0, 0x0200), (DSP_REG_AR3, 0x0200), (DSP_REG_ACM0, 0x1234)])
        tagMem 0)).2.2 ls (by simp [dualLoadStoreHandlers]) (by decide) (by decide)).1⟩

end DSPEmitter

end DSPJit
